import Mathlib

/-!
Verification development for the `certificate-api` repository.

The repository contains two revisions of the same Express HTTP service:
  * `src/index.js`       — the template-driven revision (called "variant A" here);
  * `src/unnamed/part_000` — the earlier revision without per-template
    `requiredFields` (called "variant V0" here, modelled in namespace `V0`).

The service is shallowly embedded: request bodies are association lists of
JavaScript values, each HTTP handler becomes a pure Lean function from an
environment (current date, fresh uuid, current timestamp — the ambient
effects the handler reads) and a server state to an outcome, and the
in-memory stores become explicit state records.  File-system/canvas image
generation in variant A performs no computation visible to the API other
than succeeding or failing, so it is abstracted by a boolean `imageOk`
supplied by the environment of a request.
-/

set_option autoImplicit false

/-- JavaScript values as far as this service inspects them: `undefined`,
`null`, strings, (integer) numbers, booleans, and arrays.  Absent object
properties read as `.undefined`. -/
inductive JVal where
  | undefined
  | null
  | str (s : String)
  | num (n : Int)
  | bool (b : Bool)
  | arr (xs : List JVal)

/-- JavaScript truthiness for the values of `JVal` (`!v` in the source is
`!truthy v` here).  Arrays, including empty ones, are truthy. -/
def truthy : JVal → Bool
  | .undefined => false
  | .null => false
  | .str s => !(s == "")
  | .num n => !(n == 0)
  | .bool b => b
  | .arr _ => true

/-- Strict equality `v === "someString"` between a JS value and a string
literal: no coercion. -/
def JVal.eqStr : JVal → String → Bool
  | .str s, t => s == t
  | _, _ => false

/-- A parsed JSON request body: an association list of properties in
insertion order.  JSON objects have unique keys after parsing, so lookup
takes the first match. -/
abbrev Body : Type := List (String × JVal)

/-- First value bound to `k`, if any. -/
def assocFind (l : List (String × JVal)) (k : String) : Option JVal :=
  (l.find? (fun p => p.1 == k)).map (fun p => p.2)

/-- Property read `body[k]`: reading an absent property yields `undefined`. -/
def bodyGet (b : Body) (k : String) : JVal :=
  (assocFind b k).getD .undefined

/-- Property write `body[k] = v`: overwrite in place if the key exists
(keeping its position), otherwise append, as JS property assignment does. -/
def bodySet (b : Body) (k : String) (v : JVal) : Body :=
  if (List.find? (fun p => p.1 == k) b).isSome then
    b.map (fun p => if p.1 == k then (k, v) else p)
  else
    b ++ [(k, v)]

/-- The value test `v === undefined || v === null || v === ""` from
`validateFields` (src/index.js line 115). -/
def missingVal : JVal → Bool
  | .undefined => true
  | .null => true
  | .str s => s == ""
  | _ => false

/-- The test `obj[field] === undefined || obj[field] === null ||
obj[field] === ""` from `validateFields` (src/index.js lines 113-120). -/
def isMissing (obj : Body) (field : String) : Bool :=
  missingVal (bodyGet obj field)

/-- Function `validateFields(obj, fields)` (src/index.js lines 113-120): return the
first field of `fields` whose value in `obj` is `undefined`, `null` or
`""`; return `null` (here `none`) otherwise. -/
def validateFields (obj : Body) (fields : List String) : Option String :=
  match fields with
  | [] => none
  | field :: rest =>
    if isMissing obj field then some field else validateFields obj rest

/-- JS truthiness of the `string | null` result of `validateFields`, as
used in `if (missingBase)` / `if (missingTemplateField)`: `null` and the
empty string are falsy. -/
def strTruthy : Option String → Bool
  | some s => !(s == "")
  | none => false

mutual

/-- Coercion `String(element)` as used by `Array.prototype.toString`: `undefined`
and `null` elements render as the empty string. -/
def jsElemToString : JVal → String
  | .undefined => ""
  | .null => ""
  | .str s => s
  | .num n => toString n
  | .bool b => if b then "true" else "false"
  | .arr xs => jsArrToString xs

/-- Rendering of `Array.prototype.toString`: elements joined by commas. -/
def jsArrToString : List JVal → String
  | [] => ""
  | [x] => jsElemToString x
  | x :: y :: xs => jsElemToString x ++ "," ++ jsArrToString (y :: xs)

end

/-- Coercion `String(v)`, as applied by `RegExp.test` and by
template-literal interpolation. -/
def jsToString : JVal → String
  | .undefined => "undefined"
  | .null => "null"
  | .str s => s
  | .num n => toString n
  | .bool b => if b then "true" else "false"
  | .arr xs => jsArrToString xs

/-- Whitespace class of JS regular expressions (the regex class written
backslash-s). -/
def isJsSpace (c : Char) : Bool :=
  c == ' ' || c == '\t' || c == '\n' || c == '\r' || c == '\x0b' ||
  c == '\x0c' || c == '\u00A0' || c == '\u1680' ||
  ('\u2000' ≤ c && c ≤ '\u200A') || c == '\u2028' || c == '\u2029' ||
  c == '\u202F' || c == '\u205F' || c == '\u3000' || c == '\uFEFF'

/-- A character admissible in `[^\s@]`. -/
def noAtOrSpace (c : Char) : Bool :=
  !(c == '@') && !(isJsSpace c)

/-- Split a character list at its first `'@'`, when it has one. -/
def splitAtFirstAt : List Char → Option (List Char × List Char)
  | [] => none
  | c :: cs =>
    if c == '@' then some ([], cs)
    else
      match splitAtFirstAt cs with
      | some (a, b) => some (c :: a, b)
      | none => none

/-- Whether `cs` has a `'.'` at an interior position (neither first nor
last character). -/
def interiorDot (cs : List Char) : Bool :=
  ((cs.drop 1).dropLast).contains '.'

/-- Matcher for the email regular expression of both creation handlers,
which is `^` then `[^\s@]+` then `@` then `[^\s@]+` then `\.` then
`[^\s@]+` then `$`: the string decomposes as
`A ++ "@" ++ B ++ "." ++ C` with `A`, `B`, `C` non-empty and free of
whitespace and `'@'` (`B` and `C` may contain further dots). -/
def emailRegexTest (s : String) : Bool :=
  match splitAtFirstAt s.data with
  | some (locPart, rest) =>
    !locPart.isEmpty && locPart.all noAtOrSpace &&
    !rest.isEmpty && rest.all noAtOrSpace && interiorDot rest
  | none => false

/-- Test `emailRegex.test(email)`: `test` coerces its argument to a string. -/
def emailOk (v : JVal) : Bool :=
  emailRegexTest (jsToString v)

/-- A calendar date, as produced by `new Date().toISOString().split("T")[0]`. -/
structure CalDate where
  year : Int
  month : Nat
  day : Nat
deriving DecidableEq

/-- Gregorian leap-year test (JS `Date` calendar). -/
def isLeap (y : Int) : Bool :=
  y % 4 == 0 && (!(y % 100 == 0) || y % 400 == 0)

/-- Two-digit zero padding for months and days in ISO dates. -/
def pad2 (n : Nat) : String :=
  if n < 10 then "0" ++ toString n else toString n

/-- Year rendering in ISO dates (four digits for the years this service
can encounter). -/
def padYear (y : Int) : String :=
  if y < 0 then toString y
  else if y < 10 then "000" ++ toString y
  else if y < 100 then "00" ++ toString y
  else if y < 1000 then "0" ++ toString y
  else toString y

/-- Rendering `date.toISOString().split("T")[0]` of a calendar date. -/
def isoOf (d : CalDate) : String :=
  padYear d.year ++ "-" ++ pad2 d.month ++ "-" ++ pad2 d.day

/-- Effect of `expDate.setFullYear(expDate.getFullYear() + 1)` on a calendar date:
the year increases by one and JS `Date` normalizes Feb 29 to Mar 1 when
the target year is not a leap year. -/
def addOneYearJS (d : CalDate) : CalDate :=
  if d.month == 2 && d.day == 29 && !(isLeap (d.year + 1)) then
    ⟨d.year + 1, 3, 1⟩
  else
    ⟨d.year + 1, d.month, d.day⟩

/-- The ambient effects a single request handler execution reads: the
current date (`new Date()`), a fresh uuid (`uuidv4()`), and the current
timestamp string (`new Date().toISOString()`). -/
structure Env where
  today : CalDate
  newId : String
  nowIso : String

example : validateFields [("name", .str "x")] ["name", "email"] = some "email" := by decide
example : emailRegexTest "alice@example.com" = true := by decide
example : emailRegexTest "alice@example" = false := by decide
example : emailRegexTest "a b@example.com" = false := by decide
example : isoOf (addOneYearJS ⟨2026, 10, 11⟩) = "2027-10-11" := by decide
example : isoOf (addOneYearJS ⟨2024, 2, 29⟩) = "2025-03-01" := by decide

/-- Template records of src/index.js (lines 22-64). -/
structure Template where
  id : String
  name : String
  description : String
  image : String
  requiredFields : List String
deriving DecidableEq

/-- Badge records of src/index.js (lines 66-85). -/
structure Badge where
  id : String
  name : String
  description : String
  image : String
deriving DecidableEq

/-- Signatory records (src/index.js lines 91-110). -/
structure Signatory where
  id : String
  name : String
  title : String
  signature : String
deriving DecidableEq

/-- Resolved signatory entries `{id, name, title}` embedded in
certificates and previews. -/
structure SigEntry where
  id : String
  name : String
  title : String
deriving DecidableEq

/-- Seeded template catalog (src/index.js lines 22-64). -/
def templatesSeed : List Template :=
  [ { id := "temp-001"
    , name := "Professional Certification"
    , description := "Standard certification for professional achievements"
    , image := "/images/temp-001.jpg"
    , requiredFields :=
        [ "badgeId", "expiryDate", "signatoryIds", "issuanceDate"
        , "certificateNumber", "recipientName" ] }
  , { id := "temp-002"
    , name := "Course Completion"
    , description := "Certification for completing a specific course"
    , image := "/images/temp-002.jpg"
    , requiredFields :=
        [ "issuanceDate", "expiryDate", "certificateNumber", "recipientName" ] }
  , { id := "temp-003"
    , name := "Award of Excellence"
    , description := "Special recognition for outstanding performance"
    , image := "/images/temp-003.jpg"
    , requiredFields :=
        [ "badgeId", "issuanceDate", "certificateNumber", "recipientName" ] } ]

/-- Seeded badge catalog (src/index.js lines 66-85). -/
def badgesSeed : List Badge :=
  [ { id := "badge-001", name := "Gold"
    , description := "Top tier achievement", image := "/images/badge-001.jpg" }
  , { id := "badge-002", name := "Silver"
    , description := "High level of proficiency", image := "/images/badge-002.jpg" }
  , { id := "badge-003", name := "Bronze"
    , description := "Standard level of competence", image := "/images/badge-003.jpg" } ]

/-- Seeded signatory catalog (identical in both revisions). -/
def signatoriesSeed : List Signatory :=
  [ { id := "sig-001", name := "Dr. Jane Smith"
    , title := "Program Director", signature := "JSmith2025" }
  , { id := "sig-002", name := "Prof. Robert Johnson"
    , title := "Department Chair", signature := "RJohnson" }
  , { id := "sig-003", name := "Alex Williams"
    , title := "CEO", signature := "AWilliams" } ]

/-- Certificate records built by the variant A creation handler
(src/index.js lines 272-286). -/
structure Certificate where
  id : String
  name : JVal
  email : JVal
  templateId : JVal
  templateName : String
  badgeId : JVal
  badgeName : JVal
  expiryDate : JVal
  signatories : List SigEntry
  issuanceDate : JVal
  customAttributes : List (String × JVal)
  status : String
  createdAt : String

/-- Mutable server state of variant A: the catalog lists and the
append-only certificate store (src/index.js module-level consts). -/
structure StateA where
  templates : List Template
  badges : List Badge
  signatories : List Signatory
  certificates : List Certificate

/-- Variant A state at startup. -/
def seedA : StateA :=
  { templates := templatesSeed
  , badges := badgesSeed
  , signatories := signatoriesSeed
  , certificates := [] }

/-- Reserved field names excluded from `customAttributes`
(src/index.js line 262). -/
def reservedNames : List String :=
  ["badgeId", "expiryDate", "signatoryIds", "issuanceDate"]

/-- Names validated against every creation request body in variant A
(src/index.js line 151; shadows the module-level `baseRequired`). -/
def baseRequiredCreate : List String := ["name", "email", "templateId"]

/-- Module-level `baseRequired` (src/index.js line 19), used by the
preview handler. -/
def baseRequired : List String := ["name", "email"]

/-- Auto-mapping step of the creation handler (src/index.js lines
169-175): if the template requires `recipientName` and the body value is
falsy, copy `name` into `recipientName`. -/
def autoMap (template : Template) (body : Body) : Body :=
  if template.requiredFields.contains "recipientName"
      && !(truthy (bodyGet body "recipientName")) then
    bodySet body "recipientName" (bodyGet body "name")
  else
    body

/-- Signatory-id resolution (src/index.js lines 213-220): map each id to
the catalog entry when one matches, then drop the unmatched ones. -/
def resolveSignatories (sigs : List Signatory) (ids : List JVal) : List SigEntry :=
  ids.filterMap (fun idv =>
    (sigs.find? (fun s => idv.eqStr s.id)).map
      (fun s => { id := s.id, name := s.name, title := s.title }))

/-- Signatory validation of the creation handler (src/index.js lines
200-228): when the template requires `signatoryIds`, the value must be a
non-empty array, and at least one id must resolve. -/
def signatoryStep (st : StateA) (template : Template) (body1 : Body) :
    Except String (List SigEntry) :=
  if template.requiredFields.contains "signatoryIds" then
    match bodyGet body1 "signatoryIds" with
    | .arr ids =>
      if ids.isEmpty then .error "signatoryIds must be a non-empty array"
      else
        let certificateSignatories := resolveSignatories st.signatories ids
        if certificateSignatories.isEmpty then
          .error "Invalid signatory IDs provided"
        else
          .ok certificateSignatories
    | _ => .error "signatoryIds must be a non-empty array"
  else
    .ok []

/-- Outcome of the validation-and-assembly phase of variant A creation:
either a 400 rejection with its message, or an assembled certificate
(which the handler pushes before attempting image generation). -/
inductive CreateOutcome where
  | reject (message : String)
  | issued (cert : Certificate)

/-- Message extractor for rejected creations. -/
def CreateOutcome.rejectMsg : CreateOutcome → Option String
  | .reject m => some m
  | .issued _ => none

/-- Discriminator for successful assembly. -/
def CreateOutcome.isIssued : CreateOutcome → Bool
  | .reject _ => false
  | .issued _ => true

/-- Expiry date of the assembled certificate, when assembly succeeded. -/
def CreateOutcome.issuedExpiry : CreateOutcome → Option JVal
  | .reject _ => none
  | .issued c => some c.expiryDate

/-- Signatory list of the assembled certificate, when assembly
succeeded. -/
def CreateOutcome.issuedSignatories : CreateOutcome → Option (List SigEntry)
  | .reject _ => none
  | .issued c => some c.signatories

/-- Creation handler of variant A, `app.post("/api/certificates")`
(src/index.js lines 147-288), up to and including certificate assembly;
the subsequent canvas/image work is pure I/O and is modelled by
`createRespondA`. -/
def createCert (env : Env) (st : StateA) (body : Body) : CreateOutcome :=
  let missingBase := validateFields body baseRequiredCreate
  if strTruthy missingBase then
    .reject ("Missing required field: " ++ missingBase.getD "")
  else
    match st.templates.find? (fun t => (bodyGet body "templateId").eqStr t.id) with
    | none => .reject "Invalid template ID"
    | some template =>
      let body1 := autoMap template body
      let missingTemplateField := validateFields body1 template.requiredFields
      if strTruthy missingTemplateField then
        .reject ("Missing required attribute: " ++ missingTemplateField.getD "")
      else if template.requiredFields.contains "badgeId"
          && (st.badges.find? (fun b => (bodyGet body1 "badgeId").eqStr b.id)).isNone then
        .reject "Invalid badge ID"
      else
        match signatoryStep st template body1 with
        | .error msg => .reject msg
        | .ok certificateSignatories =>
          if !(emailOk (bodyGet body "email")) then
            .reject "Invalid email format"
          else
            let today := isoOf env.today
            let issuanceDate :=
              if truthy (bodyGet body1 "issuanceDate") then bodyGet body1 "issuanceDate"
              else .str today
            if template.requiredFields.contains "expiryDate"
                && !(truthy (bodyGet body1 "expiryDate")) then
              .reject "Missing required attribute: expiryDate"
            else
              let expiryDate :=
                if truthy (bodyGet body1 "expiryDate") then bodyGet body1 "expiryDate"
                else .str (isoOf (addOneYearJS env.today))
              let customAttributes :=
                template.requiredFields.filterMap (fun field =>
                  if reservedNames.contains field then none
                  else some (field, bodyGet body1 field))
              let badgeName :=
                if truthy (bodyGet body1 "badgeId") then
                  match st.badges.find? (fun b => (bodyGet body1 "badgeId").eqStr b.id) with
                  | some b => if b.name == "" then JVal.null else JVal.str b.name
                  | none => JVal.null
                else JVal.null
              .issued
                { id := env.newId
                , name := bodyGet body "name"
                , email := bodyGet body "email"
                , templateId := bodyGet body "templateId"
                , templateName := template.name
                , badgeId :=
                    if truthy (bodyGet body1 "badgeId") then bodyGet body1 "badgeId"
                    else JVal.null
                , badgeName := badgeName
                , expiryDate := expiryDate
                , signatories := certificateSignatories
                , issuanceDate := issuanceDate
                , customAttributes := customAttributes
                , status := "active"
                , createdAt := env.nowIso }

/-- HTTP status of a variant A creation request: 400 on rejection;
otherwise the certificate is pushed and image generation yields 200 on
success and 500 on failure (src/index.js lines 290-367). -/
def createStatusA (env : Env) (imageOk : Bool) (st : StateA) (body : Body) : Nat :=
  match createCert env st body with
  | .reject _ => 400
  | .issued _ => if imageOk then 200 else 500

/-- State transition of a variant A creation request: the certificate is
appended by `certificates.push(certificate)` (src/index.js line 288)
before image generation starts, so the push happens whether or not the
image step later fails. -/
def createStepA (env : Env) (st : StateA) (body : Body) : StateA :=
  match createCert env st body with
  | .reject _ => st
  | .issued c => { st with certificates := st.certificates ++ [c] }

example :
    createStatusA ⟨⟨2026, 10, 11⟩, "uuid-1", "2026-10-11T00:00:00.000Z"⟩ true seedA
      [ ("name", .str "Alice"), ("email", .str "alice@example.com")
      , ("templateId", .str "temp-002"), ("issuanceDate", .str "2025-01-01")
      , ("expiryDate", .str "2026-01-01"), ("certificateNumber", .str "CN-1")
      , ("recipientName", .str "Alice") ] = 200 := by decide

example :
    (createCert ⟨⟨2026, 10, 11⟩, "uuid-1", "now"⟩ seedA
      [ ("name", .str "Alice"), ("email", .str "alice@example.com")
      , ("templateId", .str "temp-002"), ("issuanceDate", .str "2025-01-01")
      , ("expiryDate", .str "2026-01-01"), ("certificateNumber", .str "CN-1")
      ]).isIssued = true := by decide

example :
    (createCert ⟨⟨2026, 10, 11⟩, "uuid-1", "now"⟩ seedA
      [ ("name", .str "Alice"), ("email", .str "alice@example.com")
      , ("templateId", .str "temp-002"), ("issuanceDate", .str "2025-01-01")
      , ("expiryDate", .str "2026-01-01") ]).rejectMsg
      = some "Missing required attribute: certificateNumber" := by decide

/-- Preview records built by `app.post("/api/certificates/preview")` in
variant A (src/index.js lines 487-514). -/
structure Preview where
  previewId : String
  name : JVal
  templateId : JVal
  templateName : String
  badgeId : JVal
  badgeName : JVal
  expiryDate : JVal
  signatories : List SigEntry
  issuanceDate : JVal
  customAttributes : List (String × JVal)
  previewDate : String
  previewHtml : String

/-- Outcome of a variant A preview request.  The `crash` branch models the
`ReferenceError` thrown at src/index.js line 496: the handler reads a
variable `today` that is only defined inside the creation handler, so a
falsy `req.body.issuanceDate` that survives validation aborts the request
with the Express default 500. -/
inductive PreviewOutcome where
  | reject (message : String)
  | crash
  | ok (preview : Preview)

/-- Message extractor for rejected previews. -/
def PreviewOutcome.rejectMsg : PreviewOutcome → Option String
  | .reject m => some m
  | _ => none

/-- Signatory list of a successful preview. -/
def PreviewOutcome.okSignatories : PreviewOutcome → Option (List SigEntry)
  | .ok p => some p.signatories
  | _ => none

/-- Discriminator for successful previews. -/
def PreviewOutcome.isOk : PreviewOutcome → Bool
  | .ok _ => true
  | _ => false

/-- Badge validation of the preview handler (src/index.js lines 404-414):
only performed when the template requires `badgeId`; otherwise the local
`badge` stays `null`. -/
def previewBadge (st : StateA) (template : Template) (body : Body) :
    Except String (Option Badge) :=
  if template.requiredFields.contains "badgeId" then
    match st.badges.find? (fun b => (bodyGet body "badgeId").eqStr b.id) with
    | none => .error "Invalid badge ID"
    | some badge => .ok (some badge)
  else
    .ok none

/-- Signatory validation of the preview handler (src/index.js lines
416-440): like `signatoryStep`, but with no check that at least one id
resolved. -/
def previewSignatoryStep (st : StateA) (template : Template) (body : Body) :
    Except String (List SigEntry) :=
  if template.requiredFields.contains "signatoryIds" then
    match bodyGet body "signatoryIds" with
    | .arr ids =>
      if ids.isEmpty then .error "signatoryIds must be a non-empty array"
      else .ok (resolveSignatories st.signatories ids)
    | _ => .error "signatoryIds must be a non-empty array"
  else
    .ok []

/-- Keys other than `baseRequired` that never count as custom attributes
in the preview handler (src/index.js lines 448-454). -/
def previewKnownKeys : List String :=
  ["templateId", "badgeId", "expiryDate", "signatoryIds", "issuanceDate"]

/-- Custom-attribute HTML of the preview (src/index.js lines 443-458):
one paragraph per body key outside the base and known key sets, in body
insertion order. -/
def customAttributesHtmlOf (body : Body) : String :=
  String.join (body.map (fun p =>
    if !(baseRequired.contains p.1) && !(previewKnownKeys.contains p.1) then
      "<p><strong>" ++ p.1 ++ ":</strong> " ++ jsToString p.2 ++ "</p>"
    else ""))

/-- HTML block for one resolved signatory in the preview (src/index.js
lines 475-478). -/
def sigBlockHtml (sig : SigEntry) : String :=
  "<div style=\"display: inline-block; margin: 0 20px;\">\n              <p style=\"border-top: 1px solid black; padding-top: 5px;\">"
  ++ sig.name ++ "</p>\n              <p>" ++ sig.title ++ "</p>\n            </div>"

/-- Preview HTML fragment (src/index.js lines 461-485). -/
def previewHtmlOf (template : Template) (nameVal : JVal) (badge : Option Badge)
    (expiryVal : JVal) (attrsHtml : String) (previewSignatories : List SigEntry) :
    String :=
  "\n    <div style=\"border: 2px solid gold; padding: 20px; text-align: center; max-width: 800px; margin: 0 auto;\">\n      <h1>"
  ++ template.name
  ++ "</h1>\n      <h2>This certificate is presented to</h2>\n      <h1>"
  ++ jsToString nameVal ++ "</h1>\n      "
  ++ (match badge with
      | some b => "<p>with a " ++ b.name ++ " badge of achievement</p>"
      | none => "")
  ++ "\n      "
  ++ (if truthy expiryVal then
        "<p>Expiry Date: " ++ jsToString expiryVal ++ "</p>"
      else "")
  ++ "\n      " ++ attrsHtml ++ "\n      "
  ++ (if previewSignatories.length > 0 then
        "<div style=\"margin-top: 50px;\">"
        ++ String.join (previewSignatories.map sigBlockHtml) ++ "</div>"
      else "")
  ++ "\n    </div>\n  "

/-- Preview handler of variant A, `app.post("/api/certificates/preview")`
(src/index.js lines 371-520). -/
def previewCert (env : Env) (st : StateA) (body : Body) : PreviewOutcome :=
  let missingBase := validateFields body baseRequired
  if strTruthy missingBase then
    .reject ("Missing required field: " ++ missingBase.getD "")
  else
    match st.templates.find? (fun t => (bodyGet body "templateId").eqStr t.id) with
    | none => .reject "Invalid template ID"
    | some template =>
      let missingTemplateField := validateFields body template.requiredFields
      if strTruthy missingTemplateField then
        .reject ("Missing required attribute: " ++ missingTemplateField.getD "")
      else
        match previewBadge st template body with
        | .error msg => .reject msg
        | .ok badge =>
          match previewSignatoryStep st template body with
          | .error msg => .reject msg
          | .ok previewSignatories =>
            let attrsHtml := customAttributesHtmlOf body
            let html :=
              previewHtmlOf template (bodyGet body "name") badge
                (bodyGet body "expiryDate") attrsHtml previewSignatories
            if truthy (bodyGet body "issuanceDate") then
              .ok
                { previewId := env.newId
                , name := bodyGet body "name"
                , templateId := bodyGet body "templateId"
                , templateName := template.name
                , badgeId :=
                    if truthy (bodyGet body "badgeId") then bodyGet body "badgeId"
                    else JVal.null
                , badgeName :=
                    match badge with
                    | some b => JVal.str b.name
                    | none => JVal.null
                , expiryDate :=
                    if truthy (bodyGet body "expiryDate") then bodyGet body "expiryDate"
                    else JVal.null
                , signatories := previewSignatories
                , issuanceDate := bodyGet body "issuanceDate"
                , customAttributes :=
                    body.filter (fun p =>
                      !(baseRequired.contains p.1) && !(previewKnownKeys.contains p.1))
                , previewDate := env.nowIso
                , previewHtml := html }
            else
              .crash

/-- Reply shape of the three catalog GET endpoints. -/
structure CatalogReply (α : Type) where
  success : Bool
  data : List α

/-- Handler `app.get("/api/templates")` of variant A (src/index.js lines
122-128). -/
def getTemplatesA (st : StateA) : CatalogReply Template :=
  { success := true, data := st.templates }

/-- Handler `app.get("/api/badges")` of variant A (src/index.js lines
130-136). -/
def getBadgesA (st : StateA) : CatalogReply Badge :=
  { success := true, data := st.badges }

/-- Handler `app.get("/api/signatories")` of variant A (src/index.js
lines 138-144). -/
def getSignatoriesA (st : StateA) : CatalogReply Signatory :=
  { success := true, data := st.signatories }

/-- A state-affecting request to variant A (the two POST endpoints). -/
inductive RequestA where
  | createCertificate (env : Env) (imageOk : Bool) (body : Body)
  | previewCertificate (env : Env) (body : Body)

/-- State transition of one variant A request: only certificate creation
writes to the state, and only by appending to `certificates`. -/
def stepA (st : StateA) : RequestA → StateA
  | .createCertificate env _ body => createStepA env st body
  | .previewCertificate _ _ => st

/-- State after a sequence of variant A requests. -/
def runA (st : StateA) (ops : List RequestA) : StateA :=
  ops.foldl stepA st

example :
    (previewCert ⟨⟨2026, 10, 11⟩, "uuid-2", "now"⟩ seedA
      [ ("name", .str "Alice"), ("email", .str "alice@example.com")
      , ("templateId", .str "temp-001"), ("badgeId", .str "badge-001")
      , ("expiryDate", .str "2026-01-01")
      , ("signatoryIds", .arr [.str "bad-id"])
      , ("issuanceDate", .str "2025-01-01")
      , ("certificateNumber", .str "CN-1")
      , ("recipientName", .str "Alice") ]).okSignatories = some [] := by decide

namespace V0

/-- Template records of the earlier revision (src/unnamed/part_000 lines
13-29): no image and no `requiredFields`. -/
structure Template where
  id : String
  name : String
  description : String
deriving DecidableEq

/-- Badge records of the earlier revision (src/unnamed/part_000 lines
31-47). -/
structure Badge where
  id : String
  name : String
  description : String
deriving DecidableEq

/-- Seeded template catalog (src/unnamed/part_000 lines 13-29). -/
def templatesSeed : List Template :=
  [ { id := "temp-001", name := "Professional Certification"
    , description := "Standard certification for professional achievements" }
  , { id := "temp-002", name := "Course Completion"
    , description := "Certification for completing a specific course" }
  , { id := "temp-003", name := "Award of Excellence"
    , description := "Special recognition for outstanding performance" } ]

/-- Seeded badge catalog (src/unnamed/part_000 lines 31-47). -/
def badgesSeed : List Badge :=
  [ { id := "badge-001", name := "Gold", description := "Top tier achievement" }
  , { id := "badge-002", name := "Silver", description := "High level of proficiency" }
  , { id := "badge-003", name := "Bronze", description := "Standard level of competence" } ]

/-- Certificate records of the earlier revision (src/unnamed/part_000
lines 165-178): fixed schema, no `customAttributes`. -/
structure Certificate where
  id : String
  name : JVal
  email : JVal
  templateId : JVal
  templateName : String
  badgeId : JVal
  badgeName : String
  signatories : List SigEntry
  issuanceDate : JVal
  expiryDate : JVal
  status : String
  createdAt : String

/-- Mutable server state of the earlier revision. -/
structure StateB where
  templates : List Template
  badges : List Badge
  signatories : List Signatory
  certificates : List Certificate

/-- Earlier-revision state at startup; its signatory list is the same
data as in variant A (src/unnamed/part_000 lines 53-72). -/
def seedB : StateB :=
  { templates := templatesSeed
  , badges := badgesSeed
  , signatories := signatoriesSeed
  , certificates := [] }

/-- Outcome of the earlier revision creation handler: a 400 rejection or
a 201 with the created certificate. -/
inductive CreateOutcome where
  | reject (message : String)
  | created (cert : Certificate)

/-- Message extractor for rejected creations. -/
def CreateOutcome.rejectMsg : CreateOutcome → Option String
  | .reject m => some m
  | .created _ => none

/-- Discriminator for successful creations. -/
def CreateOutcome.isCreated : CreateOutcome → Bool
  | .reject _ => false
  | .created _ => true

/-- Expiry date of the created certificate, when creation succeeded. -/
def CreateOutcome.createdExpiry : CreateOutcome → Option JVal
  | .reject _ => none
  | .created c => some c.expiryDate

/-- Creation handler of the earlier revision,
`app.post("/api/certificates")` (src/unnamed/part_000 lines 99-186). -/
def createCert (env : Env) (st : StateB) (body : Body) : CreateOutcome :=
  let name := bodyGet body "name"
  let email := bodyGet body "email"
  let templateId := bodyGet body "templateId"
  let badgeId := bodyGet body "badgeId"
  if !(truthy name) || !(truthy email) || !(truthy templateId) || !(truthy badgeId) then
    .reject "Missing required fields: name, email, templateId, and badgeId are required"
  else if !(emailOk email) then
    .reject "Invalid email format"
  else
    match st.templates.find? (fun t => templateId.eqStr t.id) with
    | none => .reject "Invalid template ID"
    | some template =>
      match st.badges.find? (fun b => badgeId.eqStr b.id) with
      | none => .reject "Invalid badge ID"
      | some badge =>
        let certificateSignatories :=
          match bodyGet body "signatoryIds" with
          | .arr ids => resolveSignatories st.signatories ids
          | _ => []
        let today := isoOf env.today
        let parsedIssuanceDate :=
          if truthy (bodyGet body "issuanceDate") then bodyGet body "issuanceDate"
          else .str today
        let parsedExpiryDate :=
          if truthy (bodyGet body "expiryDate") then bodyGet body "expiryDate"
          else .str (isoOf (addOneYearJS env.today))
        .created
          { id := env.newId
          , name := name
          , email := email
          , templateId := templateId
          , templateName := template.name
          , badgeId := badgeId
          , badgeName := badge.name
          , signatories := certificateSignatories
          , issuanceDate := parsedIssuanceDate
          , expiryDate := parsedExpiryDate
          , status := "active"
          , createdAt := env.nowIso }

/-- HTTP status of an earlier-revision creation request: 400 on
rejection, 201 on success. -/
def createStatus (env : Env) (st : StateB) (body : Body) : Nat :=
  match createCert env st body with
  | .reject _ => 400
  | .created _ => 201

/-- State transition of an earlier-revision creation request
(src/unnamed/part_000 line 180). -/
def createStep (env : Env) (st : StateB) (body : Body) : StateB :=
  match createCert env st body with
  | .reject _ => st
  | .created c => { st with certificates := st.certificates ++ [c] }

/-- Preview records of the earlier revision (src/unnamed/part_000 lines
235-263). -/
structure Preview where
  previewId : String
  name : JVal
  templateId : JVal
  templateName : String
  badgeId : JVal
  badgeName : String
  signatories : List SigEntry
  previewDate : String
  previewHtml : String

/-- Outcome of an earlier-revision preview request. -/
inductive PreviewOutcome where
  | reject (message : String)
  | ok (preview : Preview)

/-- Message extractor for rejected previews. -/
def PreviewOutcome.rejectMsg : PreviewOutcome → Option String
  | .reject m => some m
  | .ok _ => none

/-- HTML block for one resolved signatory (src/unnamed/part_000 lines
254-257). -/
def sigBlockHtml (sig : SigEntry) : String :=
  "<div style=\"display: inline-block; margin: 0 20px;\">\n                <p style=\"border-top: 1px solid black; padding-top: 5px;\">"
  ++ sig.name ++ "</p>\n                <p>" ++ sig.title ++ "</p>\n              </div>"

/-- Preview HTML of the earlier revision (src/unnamed/part_000 lines
245-262). -/
def previewHtmlOf (template : Template) (nameVal : JVal) (badge : Badge)
    (previewSignatories : List SigEntry) : String :=
  "\n      <div style=\"border: 2px solid gold; padding: 20px; text-align: center; max-width: 800px; margin: 0 auto;\">\n        <h1>"
  ++ template.name
  ++ "</h1>\n        <h2>This certificate is presented to</h2>\n        <h1>"
  ++ jsToString nameVal
  ++ "</h1>\n        <p>with a " ++ badge.name ++ " badge of achievement</p>\n        "
  ++ (if previewSignatories.length > 0 then
        "<div style=\"margin-top: 50px;\">\n            "
        ++ String.join (previewSignatories.map sigBlockHtml)
        ++ "\n          </div>"
      else "")
  ++ "\n      </div>\n    "

/-- Preview handler of the earlier revision,
`app.post("/api/certificates/preview")` (src/unnamed/part_000 lines
189-269). -/
def previewCert (env : Env) (st : StateB) (body : Body) : PreviewOutcome :=
  let name := bodyGet body "name"
  let templateId := bodyGet body "templateId"
  let badgeId := bodyGet body "badgeId"
  if !(truthy name) || !(truthy templateId) || !(truthy badgeId) then
    .reject "Name, template ID, and badge ID are required for preview"
  else
    match st.templates.find? (fun t => templateId.eqStr t.id) with
    | none => .reject "Invalid template ID"
    | some template =>
      match st.badges.find? (fun b => badgeId.eqStr b.id) with
      | none => .reject "Invalid badge ID"
      | some badge =>
        let previewSignatories :=
          match bodyGet body "signatoryIds" with
          | .arr ids => resolveSignatories st.signatories ids
          | _ => []
        .ok
          { previewId := env.newId
          , name := name
          , templateId := templateId
          , templateName := template.name
          , badgeId := badgeId
          , badgeName := badge.name
          , signatories := previewSignatories
          , previewDate := env.nowIso
          , previewHtml := previewHtmlOf template name badge previewSignatories }

/-- Handler `app.get("/api/templates")` of the earlier revision
(src/unnamed/part_000 lines 75-80). -/
def getTemplates (st : StateB) : CatalogReply Template :=
  { success := true, data := st.templates }

/-- Handler `app.get("/api/badges")` of the earlier revision
(src/unnamed/part_000 lines 83-88). -/
def getBadges (st : StateB) : CatalogReply Badge :=
  { success := true, data := st.badges }

/-- Handler `app.get("/api/signatories")` of the earlier revision
(src/unnamed/part_000 lines 91-96). -/
def getSignatories (st : StateB) : CatalogReply Signatory :=
  { success := true, data := st.signatories }

/-- A state-affecting request to the earlier revision. -/
inductive Request where
  | createCertificate (env : Env) (body : Body)
  | previewCertificate (env : Env) (body : Body)

/-- State transition of one earlier-revision request. -/
def step (st : StateB) : Request → StateB
  | .createCertificate env body => createStep env st body
  | .previewCertificate _ _ => st

/-- State after a sequence of earlier-revision requests. -/
def run (st : StateB) (ops : List Request) : StateB :=
  ops.foldl step st

end V0

example :
    (V0.createCert ⟨⟨2026, 10, 11⟩, "uuid-3", "now"⟩ V0.seedB
      [ ("name", .str "Bob"), ("email", .str "bob@example.com")
      , ("templateId", .str "temp-001"), ("badgeId", .str "badge-002")
      ]).isCreated = true := by decide

example :
    (V0.createCert ⟨⟨2026, 10, 11⟩, "uuid-3", "now"⟩ V0.seedB
      [ ("name", .str "Bob"), ("email", .str "bob.example.com")
      , ("templateId", .str "temp-001"), ("badgeId", .str "badge-002")
      ]).rejectMsg = some "Invalid email format" := by decide

/-- Shorthand for the second seeded template, `temp-002`. -/
def temp002 : Template := templatesSeed.get ⟨1, by decide⟩

/-- Shorthand for the third seeded template, `temp-003`. -/
def temp003 : Template := templatesSeed.get ⟨2, by decide⟩

/-- Shorthand for the first seeded template, `temp-001`. -/
def temp001 : Template := templatesSeed.get ⟨0, by decide⟩

/-- Fixed environment used by concrete witness evaluations. -/
def envW : Env :=
  { today := ⟨2026, 10, 11⟩, newId := "uuid-w"
  , nowIso := "2026-10-11T00:00:00.000Z" }

/-- A complete, valid creation body for template `temp-002`. -/
def bodyW2 : Body :=
  [ ("name", .str "Alice"), ("email", .str "alice@example.com")
  , ("templateId", .str "temp-002"), ("issuanceDate", .str "2025-01-01")
  , ("expiryDate", .str "2026-01-01"), ("certificateNumber", .str "CN-1")
  , ("recipientName", .str "Alice") ]

/-- The certificate record assembled from `bodyW2` under `envW`. -/
def certW2 : Certificate :=
  { id := "uuid-w"
  , name := .str "Alice"
  , email := .str "alice@example.com"
  , templateId := .str "temp-002"
  , templateName := "Course Completion"
  , badgeId := .null
  , badgeName := .null
  , expiryDate := .str "2026-01-01"
  , signatories := []
  , issuanceDate := .str "2025-01-01"
  , customAttributes :=
      [ ("certificateNumber", .str "CN-1"), ("recipientName", .str "Alice") ]
  , status := "active"
  , createdAt := "2026-10-11T00:00:00.000Z" }

/-- A creation body for `temp-002` supplying every base and required
field except `recipientName`, which is absent. -/
def bodyC1 : Body :=
  [ ("name", .str "Alice"), ("email", .str "alice@example.com")
  , ("templateId", .str "temp-002"), ("issuanceDate", .str "2025-01-01")
  , ("expiryDate", .str "2026-01-01"), ("certificateNumber", .str "CN-1") ]

/-- A creation body for `temp-003` (whose template does not require
`expiryDate`) that omits `expiryDate` and supplies an `issuanceDate` far
in the past. -/
def bodyC3 : Body :=
  [ ("name", .str "Alice"), ("email", .str "alice@example.com")
  , ("templateId", .str "temp-003"), ("badgeId", .str "badge-001")
  , ("issuanceDate", .str "2020-01-01"), ("certificateNumber", .str "CN-3")
  , ("recipientName", .str "Alice") ]

/-- The certificate record assembled from `bodyC3` under `envW`. -/
def certC3 : Certificate :=
  { id := "uuid-w"
  , name := .str "Alice"
  , email := .str "alice@example.com"
  , templateId := .str "temp-003"
  , templateName := "Award of Excellence"
  , badgeId := .str "badge-001"
  , badgeName := .str "Gold"
  , expiryDate := .str "2027-10-11"
  , signatories := []
  , issuanceDate := .str "2020-01-01"
  , customAttributes :=
      [ ("certificateNumber", .str "CN-3"), ("recipientName", .str "Alice") ]
  , status := "active"
  , createdAt := "2026-10-11T00:00:00.000Z" }

/-- The resolved entry for seeded signatory `sig-001`. -/
def sigEntry001 : SigEntry :=
  { id := "sig-001", name := "Dr. Jane Smith", title := "Program Director" }

/-- A complete `temp-001` body whose `signatoryIds` list holds only an
unresolvable id. -/
def bodyC2bad : Body :=
  [ ("name", .str "Alice"), ("email", .str "alice@example.com")
  , ("templateId", .str "temp-001"), ("badgeId", .str "badge-001")
  , ("expiryDate", .str "2026-01-01")
  , ("signatoryIds", .arr [.str "bad-id"])
  , ("issuanceDate", .str "2025-01-01"), ("certificateNumber", .str "CN-2")
  , ("recipientName", .str "Alice") ]

/-- A complete `temp-001` body mixing one resolvable and one
unresolvable signatory id. -/
def bodyC2mixed : Body :=
  [ ("name", .str "Alice"), ("email", .str "alice@example.com")
  , ("templateId", .str "temp-001"), ("badgeId", .str "badge-001")
  , ("expiryDate", .str "2026-01-01")
  , ("signatoryIds", .arr [.str "sig-001", .str "bad-id"])
  , ("issuanceDate", .str "2025-01-01"), ("certificateNumber", .str "CN-2")
  , ("recipientName", .str "Alice") ]

/-- A `temp-002` body valid in every respect except that its email does
not match the email regular expression. -/
def bodyC10 : Body :=
  [ ("name", .str "Alice"), ("email", .str "not-an-email")
  , ("templateId", .str "temp-002"), ("issuanceDate", .str "2025-01-01")
  , ("expiryDate", .str "2026-01-01"), ("certificateNumber", .str "CN-1")
  , ("recipientName", .str "Alice") ]

/-- A complete `temp-001` body whose `signatoryIds` value is a plain
string rather than an array. -/
def bodyC2str : Body :=
  [ ("name", .str "Alice"), ("email", .str "alice@example.com")
  , ("templateId", .str "temp-001"), ("badgeId", .str "badge-001")
  , ("expiryDate", .str "2026-01-01")
  , ("signatoryIds", .str "oops")
  , ("issuanceDate", .str "2025-01-01"), ("certificateNumber", .str "CN-2")
  , ("recipientName", .str "Alice") ]

section Lemmas

/-- A `validateFields` scan returns `none` exactly when no listed field
is missing. -/
theorem validateFields_eq_none (obj : Body) (fields : List String) :
    validateFields obj fields = none ↔ ∀ f ∈ fields, isMissing obj f = false := by
  induction fields with
  | nil => simp [validateFields]
  | cons g rest ih =>
    by_cases hg : isMissing obj g = true
    · simp [validateFields, hg]
    · simp only [Bool.not_eq_true] at hg
      simp [validateFields, hg, ih]

/-- A field returned by `validateFields` is a listed, missing field. -/
theorem validateFields_mem {obj : Body} {fields : List String} {f : String}
    (h : validateFields obj fields = some f) :
    f ∈ fields ∧ isMissing obj f = true := by
  induction fields with
  | nil => simp [validateFields] at h
  | cons g rest ih =>
    by_cases hg : isMissing obj g = true
    · simp [validateFields, hg] at h
      subst h
      exact ⟨List.mem_cons_self _ _, hg⟩
    · simp only [Bool.not_eq_true] at hg
      simp [validateFields, hg] at h
      rcases ih h with ⟨hmem, hmiss⟩
      exact ⟨List.mem_cons_of_mem _ hmem, hmiss⟩

/-- When exactly one listed field is missing, `validateFields` returns
it. -/
theorem validateFields_of_unique {obj : Body} {fields : List String} {f : String}
    (hf : f ∈ fields) (hm : isMissing obj f = true)
    (huniq : ∀ g ∈ fields, g ≠ f → isMissing obj g = false) :
    validateFields obj fields = some f := by
  induction fields with
  | nil => cases hf
  | cons g rest ih =>
    by_cases hgf : g = f
    · subst hgf
      simp [validateFields, hm]
    · have hgm : isMissing obj g = false := huniq g (List.mem_cons_self _ _) hgf
      have hf' : f ∈ rest := by
        rcases List.mem_cons.mp hf with h | h
        · exact absurd h.symm hgf
        · exact h
      simp [validateFields, hgm]
      exact ih hf' (fun g' hg' hne => huniq g' (List.mem_cons_of_mem _ hg') hne)

/-- Truthiness of a value implies it is not missing. -/
theorem missingVal_eq_false_of_truthy {v : JVal} (h : truthy v = true) :
    missingVal v = false := by
  cases v <;> simp_all [truthy, missingVal]

/-- Mapping the overwrite function over entries does not disturb lookups
of other keys. -/
theorem find?_map_set_other (b : List (String × JVal)) (k : String) (v : JVal)
    (k' : String) (h : k' ≠ k) :
    List.find? (fun p => p.1 == k') (b.map (fun p => if p.1 == k then (k, v) else p))
      = List.find? (fun p => p.1 == k') b := by
  induction b with
  | nil => rfl
  | cons p rest ih =>
    simp only [List.map_cons]
    by_cases hpk : p.1 = k
    · have hone : ((if p.1 == k then (k, v) else p) : String × JVal) = (k, v) := by
        simp [hpk]
      rw [hone]
      have h1 : ¬((fun q : String × JVal => q.1 == k') (k, v) = true) := by
        simp only [beq_iff_eq]
        exact fun hk => h hk.symm
      have h2 : ¬((fun q : String × JVal => q.1 == k') p = true) := by
        simp only [beq_iff_eq, hpk]
        exact fun hk => h hk.symm
      rw [List.find?_cons_of_neg (p := fun q : String × JVal => q.1 == k') (a := (k, v)) _ h1]
      rw [List.find?_cons_of_neg (p := fun q : String × JVal => q.1 == k') (a := p) _ h2]
      exact ih
    · have hone : ((if p.1 == k then (k, v) else p) : String × JVal) = p := by
        simp [hpk]
      rw [hone]
      by_cases hpk2 : p.1 = k'
      · have h1 : ((fun q : String × JVal => q.1 == k') p = true) := by
          simp only [beq_iff_eq]
          exact hpk2
        rw [List.find?_cons_of_pos (p := fun q : String × JVal => q.1 == k') (a := p) _ h1]
        rw [List.find?_cons_of_pos (p := fun q : String × JVal => q.1 == k') (a := p) _ h1]
      · have h1 : ¬((fun q : String × JVal => q.1 == k') p = true) := by
          simp only [beq_iff_eq]
          exact hpk2
        rw [List.find?_cons_of_neg (p := fun q : String × JVal => q.1 == k') (a := p) _ h1]
        rw [List.find?_cons_of_neg (p := fun q : String × JVal => q.1 == k') (a := p) _ h1]
        exact ih

/-- Mapping the overwrite function finds the overwritten entry when the
key was present. -/
theorem find?_map_set_self (b : List (String × JVal)) (k : String) (v : JVal)
    (h : (List.find? (fun p => p.1 == k) b).isSome) :
    List.find? (fun p => p.1 == k) (b.map (fun p => if p.1 == k then (k, v) else p))
      = some (k, v) := by
  induction b with
  | nil => simp at h
  | cons p rest ih =>
    simp only [List.map_cons]
    by_cases hpk : p.1 = k
    · have hone : ((if p.1 == k then (k, v) else p) : String × JVal) = (k, v) := by
        simp [hpk]
      rw [hone]
      have h1 : ((fun q : String × JVal => q.1 == k) (k, v) = true) := by
        simp
      rw [List.find?_cons_of_pos (p := fun q : String × JVal => q.1 == k) (a := (k, v)) _ h1]
    · have hone : ((if p.1 == k then (k, v) else p) : String × JVal) = p := by
        simp [hpk]
      rw [hone]
      have h1 : ¬((fun q : String × JVal => q.1 == k) p = true) := by
        simp only [beq_iff_eq]
        exact hpk
      have h' : (List.find? (fun p => p.1 == k) rest).isSome := by
        rw [List.find?_cons_of_neg (p := fun q : String × JVal => q.1 == k) (a := p) _ h1] at h
        exact h
      rw [List.find?_cons_of_neg (p := fun q : String × JVal => q.1 == k) (a := p) _ h1]
      exact ih h'

/-- Reading back the key just written. -/
theorem bodyGet_bodySet_self (b : Body) (k : String) (v : JVal) :
    bodyGet (bodySet b k v) k = v := by
  unfold bodySet
  by_cases hs : (List.find? (fun p => p.1 == k) b).isSome
  · simp only [hs, if_true]
    unfold bodyGet assocFind
    rw [find?_map_set_self b k v hs]
    rfl
  · rw [Bool.not_eq_true] at hs
    simp only [hs, Bool.false_eq_true, if_false]
    unfold bodyGet assocFind
    rw [List.find?_append]
    have hb : List.find? (fun p => p.1 == k) b = none := by
      cases hfb : List.find? (fun p => p.1 == k) b with
      | none => rfl
      | some x => rw [hfb] at hs; simp at hs
    rw [hb]
    have h1 : ((fun q : String × JVal => q.1 == k) (k, v) = true) := by
      simp
    rw [List.find?_cons_of_pos (p := fun q : String × JVal => q.1 == k) (a := (k, v)) _ h1]
    rfl

/-- Writing one key leaves the others unchanged. -/
theorem bodyGet_bodySet_other (b : Body) (k : String) (v : JVal) (k' : String)
    (h : k' ≠ k) :
    bodyGet (bodySet b k v) k' = bodyGet b k' := by
  unfold bodySet
  by_cases hs : (List.find? (fun p => p.1 == k) b).isSome
  · simp only [hs, if_true]
    unfold bodyGet assocFind
    rw [find?_map_set_other b k v k' h]
  · rw [Bool.not_eq_true] at hs
    simp only [hs, Bool.false_eq_true, if_false]
    unfold bodyGet assocFind
    rw [List.find?_append]
    have h1 : ¬((fun q : String × JVal => q.1 == k') (k, v) = true) := by
      simp only [beq_iff_eq]
      exact fun hk => h hk.symm
    have hlast : List.find? (fun p => p.1 == k') [(k, v)] = none := by
      rw [List.find?_cons_of_neg (p := fun q : String × JVal => q.1 == k') (a := (k, v)) _ h1]
      rfl
    rw [hlast]
    cases List.find? (fun p => p.1 == k') b <;> rfl

/-- Auto-mapping never changes keys other than `recipientName`. -/
theorem bodyGet_autoMap_other (t : Template) (b : Body) (k : String)
    (h : k ≠ "recipientName") :
    bodyGet (autoMap t b) k = bodyGet b k := by
  unfold autoMap
  by_cases hc : (t.requiredFields.contains "recipientName"
      && !(truthy (bodyGet b "recipientName"))) = true
  · simp only [hc, if_true]
    exact bodyGet_bodySet_other b "recipientName" (bodyGet b "name") k h
  · rw [Bool.not_eq_true] at hc
    simp only [hc, Bool.false_eq_true, if_false]

/-- When the template requires `recipientName` and the body value is
falsy, auto-mapping copies the `name` value onto `recipientName`. -/
theorem bodyGet_autoMap_fired (t : Template) (b : Body)
    (hreq : t.requiredFields.contains "recipientName" = true)
    (hfal : truthy (bodyGet b "recipientName") = false) :
    bodyGet (autoMap t b) "recipientName" = bodyGet b "name" := by
  unfold autoMap
  simp only [hreq, hfal, Bool.not_false, Bool.and_self, if_true]
  exact bodyGet_bodySet_self b "recipientName" (bodyGet b "name")

/-- When the body value of `recipientName` is truthy, auto-mapping is the
identity. -/
theorem autoMap_id_of_truthy (t : Template) (b : Body)
    (htr : truthy (bodyGet b "recipientName") = true) :
    autoMap t b = b := by
  unfold autoMap
  simp [htr]

/-- Missing-field status is unchanged by auto-mapping for keys other than
`recipientName`. -/
theorem isMissing_autoMap_other (t : Template) (b : Body) (k : String)
    (h : k ≠ "recipientName") :
    isMissing (autoMap t b) k = isMissing b k := by
  unfold isMissing
  rw [bodyGet_autoMap_other t b k h]

/-- Two strings differ when one extends a prefix whose first character
differs from the first character of the other. -/
theorem append_ne_of_head_ne (p q m : String) (c d : Char)
    (cs ds : List Char) (hp : p.data = c :: cs) (hq : q.data = d :: ds)
    (hcd : c ≠ d) : p ++ m ≠ q := by
  intro heq
  have hdata := congrArg String.data heq
  rw [String.data_append, hp, hq] at hdata
  simp only [List.cons_append, List.cons.injEq] at hdata
  exact hcd hdata.1

/-- String concatenation cancels on the left. -/
theorem string_append_left_cancel {p a b : String} (h : p ++ a = p ++ b) :
    a = b := by
  have hdata := congrArg String.data h
  rw [String.data_append, String.data_append] at hdata
  have h2 := List.append_cancel_left hdata
  cases a with
  | mk da =>
    cases b with
    | mk db =>
      exact congrArg String.mk (by simpa using h2)

/-- Keys of the collected custom attributes are exactly the non-reserved
required fields, in order. -/
theorem customAttributes_keys (fields : List String) (g : String → JVal) :
    (fields.filterMap (fun f =>
        if reservedNames.contains f then none else some (f, g f))).map Prod.fst
      = fields.filter (fun f => !(reservedNames.contains f)) := by
  induction fields with
  | nil => rfl
  | cons f fs ih =>
    by_cases hf : f ∈ reservedNames <;>
      simp_all [List.filterMap_cons, List.filter_cons]

/-- Looking up a non-reserved required field in the collected custom
attributes yields the body value used to build them. -/
theorem customAttributes_find (fields : List String) (g : String → JVal)
    (f : String) (hf : f ∈ fields) (hres : reservedNames.contains f = false) :
    assocFind (fields.filterMap (fun x =>
        if reservedNames.contains x then none else some (x, g x))) f
      = some (g f) := by
  induction fields with
  | nil => cases hf
  | cons x xs ih =>
    rw [List.filterMap_cons]
    by_cases hx : x = f
    · subst hx
      rw [hres]
      simp only [Bool.false_eq_true, if_false]
      unfold assocFind
      rw [List.find?_cons_of_pos
        (p := fun q : String × JVal => q.1 == x) (a := (x, g x)) _ (by simp)]
      rfl
    · have hmem : f ∈ xs := by
        rcases List.mem_cons.mp hf with h | h
        · exact absurd h.symm hx
        · exact h
      by_cases hxres : reservedNames.contains x = true
      · rw [hxres, if_pos rfl]
        exact ih hmem
      · rw [Bool.not_eq_true] at hxres
        rw [hxres]
        simp only [Bool.false_eq_true, if_false]
        unfold assocFind at ih ⊢
        rw [List.find?_cons_of_neg
          (p := fun q : String × JVal => q.1 == f) (a := (x, g x)) _ (by simp [hx])]
        exact ih hmem

/-- One variant A request never changes the template, badge or signatory
catalogs. -/
theorem stepA_preserves_catalogs (st : StateA) (r : RequestA) :
    (stepA st r).templates = st.templates ∧ (stepA st r).badges = st.badges ∧
      (stepA st r).signatories = st.signatories := by
  cases r with
  | createCertificate env imageOk body =>
    unfold stepA createStepA
    cases h : createCert env st body <;> simp [h]
  | previewCertificate env body =>
    unfold stepA
    simp

/-- A run of variant A requests never changes the catalogs. -/
theorem runA_preserves_catalogs (ops : List RequestA) : ∀ st : StateA,
    (runA st ops).templates = st.templates ∧ (runA st ops).badges = st.badges ∧
      (runA st ops).signatories = st.signatories := by
  induction ops with
  | nil => intro st; exact ⟨rfl, rfl, rfl⟩
  | cons r rs ih =>
    intro st
    have h1 := stepA_preserves_catalogs st r
    have h2 := ih (stepA st r)
    unfold runA at h2 ⊢
    rw [List.foldl_cons]
    exact ⟨h2.1.trans h1.1, h2.2.1.trans h1.2.1, h2.2.2.trans h1.2.2⟩

/-- One earlier-revision request never changes the catalogs. -/
theorem V0.step_preserves_catalogs (st : V0.StateB) (r : V0.Request) :
    (V0.step st r).templates = st.templates ∧ (V0.step st r).badges = st.badges ∧
      (V0.step st r).signatories = st.signatories := by
  cases r with
  | createCertificate env body =>
    unfold V0.step V0.createStep
    cases h : V0.createCert env st body <;> simp [h]
  | previewCertificate env body =>
    unfold V0.step
    simp

/-- A run of earlier-revision requests never changes the catalogs. -/
theorem V0.run_preserves_catalogs (ops : List V0.Request) : ∀ st : V0.StateB,
    (V0.run st ops).templates = st.templates ∧ (V0.run st ops).badges = st.badges ∧
      (V0.run st ops).signatories = st.signatories := by
  induction ops with
  | nil => intro st; exact ⟨rfl, rfl, rfl⟩
  | cons r rs ih =>
    intro st
    have h1 := V0.step_preserves_catalogs st r
    have h2 := ih (V0.step st r)
    unfold V0.run at h2 ⊢
    rw [List.foldl_cons]
    exact ⟨h2.1.trans h1.1, h2.2.1.trans h1.2.1, h2.2.2.trans h1.2.2⟩

/-- Inversion for a passed creation signatory check: when the template
requires `signatoryIds`, the body held a non-empty array whose resolved,
filtered entries are the returned non-empty list. -/
theorem signatoryStep_ok_inv (st : StateA) (t : Template) (b1 : Body)
    (l : List SigEntry)
    (hreq : t.requiredFields.contains "signatoryIds" = true)
    (h : signatoryStep st t b1 = .ok l) :
    ∃ ids, bodyGet b1 "signatoryIds" = .arr ids ∧ ids ≠ [] ∧
      l = resolveSignatories st.signatories ids ∧ l ≠ [] := by
  unfold signatoryStep at h
  rw [hreq, if_pos rfl] at h
  split at h
  · rename_i ids hv
    by_cases hne : ids.isEmpty = true
    · rw [hne, if_pos rfl] at h
      exact Except.noConfusion h
    · rw [Bool.not_eq_true] at hne
      rw [hne] at h
      simp only [Bool.false_eq_true, if_false] at h
      by_cases hres : (resolveSignatories st.signatories ids).isEmpty = true
      · rw [hres, if_pos rfl] at h
        exact Except.noConfusion h
      · rw [Bool.not_eq_true] at hres
        rw [hres] at h
        simp only [Bool.false_eq_true, if_false] at h
        injection h with h
        refine ⟨ids, hv, ?_, h.symm, ?_⟩
        · intro hemp
          rw [hemp] at hne
          exact Bool.noConfusion hne
        · intro hemp
          rw [h, hemp] at hres
          exact Bool.noConfusion hres
  · exact Except.noConfusion h

/-- Inversion for a passed preview signatory check: when the template
requires `signatoryIds`, the body held a non-empty array and the result
is the resolved, filtered list — with no constraint that any id
resolved. -/
theorem previewSignatoryStep_ok_inv (st : StateA) (t : Template) (body : Body)
    (l : List SigEntry)
    (hreq : t.requiredFields.contains "signatoryIds" = true)
    (h : previewSignatoryStep st t body = .ok l) :
    ∃ ids, bodyGet body "signatoryIds" = .arr ids ∧ ids ≠ [] ∧
      l = resolveSignatories st.signatories ids := by
  unfold previewSignatoryStep at h
  rw [hreq, if_pos rfl] at h
  split at h
  · rename_i ids hv
    by_cases hne : ids.isEmpty = true
    · rw [hne, if_pos rfl] at h
      exact Except.noConfusion h
    · rw [Bool.not_eq_true] at hne
      rw [hne] at h
      simp only [Bool.false_eq_true, if_false] at h
      injection h with h
      refine ⟨ids, hv, ?_, h.symm⟩
      intro hemp
      rw [hemp] at hne
      exact Bool.noConfusion hne
  · exact Except.noConfusion h

/-- Inversion for a successful creation: the template resolved, the
signatory check passed, and the certificate carries exactly its
result. -/
theorem createCert_issued_inv (env : Env) (st : StateA) (body : Body)
    (c : Certificate) (h : createCert env st body = .issued c) :
    ∃ t, st.templates.find? (fun u => (bodyGet body "templateId").eqStr u.id)
        = some t ∧
      ∃ l, signatoryStep st t (autoMap t body) = .ok l ∧ c.signatories = l := by
  simp only [createCert] at h
  split at h
  · exact CreateOutcome.noConfusion h
  split at h
  · exact CreateOutcome.noConfusion h
  rename_i t htempl
  split at h
  · exact CreateOutcome.noConfusion h
  split at h
  · exact CreateOutcome.noConfusion h
  split at h
  · exact CreateOutcome.noConfusion h
  rename_i l hsig
  split at h
  · exact CreateOutcome.noConfusion h
  split at h
  · exact CreateOutcome.noConfusion h
  injection h with h
  exact ⟨t, htempl, l, hsig, by rw [← h]⟩

/-- Inversion for a successful preview: the template resolved, the
preview signatory check passed, and the preview carries exactly its
result. -/
theorem previewCert_ok_inv (env : Env) (st : StateA) (body : Body)
    (p : Preview) (h : previewCert env st body = .ok p) :
    ∃ t, st.templates.find? (fun u => (bodyGet body "templateId").eqStr u.id)
        = some t ∧
      ∃ l, previewSignatoryStep st t body = .ok l ∧ p.signatories = l := by
  simp only [previewCert] at h
  split at h
  · exact PreviewOutcome.noConfusion h
  split at h
  · exact PreviewOutcome.noConfusion h
  rename_i t htempl
  split at h
  · exact PreviewOutcome.noConfusion h
  split at h
  · exact PreviewOutcome.noConfusion h
  split at h
  · exact PreviewOutcome.noConfusion h
  rename_i l hsig
  split at h
  · injection h with h
    exact ⟨t, htempl, l, hsig, by rw [← h]⟩
  · exact PreviewOutcome.noConfusion h

/-- A string extending `p` cannot equal a string that `p` is no prefix
of. -/
theorem append_ne_of_not_prefix (p m q : String)
    (h : ¬ p.data <+: q.data) : p ++ m ≠ q := by
  intro heq
  apply h
  have hdata := congrArg String.data heq
  rw [String.data_append] at hdata
  exact ⟨m.data, hdata⟩

/-- The creation signatory check errors only with one of its two
messages. -/
theorem signatoryStep_error_msgs (st : StateA) (t : Template) (b1 : Body)
    (m : String) (h : signatoryStep st t b1 = .error m) :
    m = "signatoryIds must be a non-empty array" ∨
      m = "Invalid signatory IDs provided" := by
  unfold signatoryStep at h
  by_cases hreq : t.requiredFields.contains "signatoryIds" = true
  · rw [hreq, if_pos rfl] at h
    split at h
    · rename_i ids hv
      by_cases hne : ids.isEmpty = true
      · rw [hne, if_pos rfl] at h
        injection h with h
        exact Or.inl h.symm
      · rw [Bool.not_eq_true] at hne
        rw [hne] at h
        simp only [Bool.false_eq_true, if_false] at h
        by_cases hres : (resolveSignatories st.signatories ids).isEmpty = true
        · rw [hres, if_pos rfl] at h
          injection h with h
          exact Or.inr h.symm
        · rw [Bool.not_eq_true] at hres
          rw [hres] at h
          simp only [Bool.false_eq_true, if_false] at h
          exact Except.noConfusion h
    · injection h with h
      exact Or.inl h.symm
  · rw [Bool.not_eq_true] at hreq
    rw [hreq] at h
    simp only [Bool.false_eq_true, if_false] at h
    exact Except.noConfusion h

/-- Without the `signatoryIds` requirement the creation signatory check
passes with the empty list. -/
theorem signatoryStep_not_required (st : StateA) (t : Template) (b1 : Body)
    (hreq : t.requiredFields.contains "signatoryIds" = false) :
    signatoryStep st t b1 = .ok [] := by
  unfold signatoryStep
  rw [hreq]
  simp

/-- The preview signatory check errors only with the non-empty-array
message. -/
theorem previewSignatoryStep_error_msg (st : StateA) (t : Template) (body : Body)
    (m : String) (h : previewSignatoryStep st t body = .error m) :
    m = "signatoryIds must be a non-empty array" := by
  unfold previewSignatoryStep at h
  by_cases hreq : t.requiredFields.contains "signatoryIds" = true
  · rw [hreq, if_pos rfl] at h
    split at h
    · rename_i ids hv
      by_cases hne : ids.isEmpty = true
      · rw [hne, if_pos rfl] at h
        injection h with h
        exact h.symm
      · rw [Bool.not_eq_true] at hne
        rw [hne] at h
        simp only [Bool.false_eq_true, if_false] at h
        exact Except.noConfusion h
    · injection h with h
      exact h.symm
  · rw [Bool.not_eq_true] at hreq
    rw [hreq] at h
    simp only [Bool.false_eq_true, if_false] at h
    exact Except.noConfusion h

/-- The preview badge check errors only with the invalid-badge
message. -/
theorem previewBadge_error_msg (st : StateA) (t : Template) (body : Body)
    (m : String) (h : previewBadge st t body = .error m) :
    m = "Invalid badge ID" := by
  unfold previewBadge at h
  by_cases hreq : t.requiredFields.contains "badgeId" = true
  · rw [hreq, if_pos rfl] at h
    split at h
    · injection h with h
      exact h.symm
    · exact Except.noConfusion h
  · rw [Bool.not_eq_true] at hreq
    rw [hreq] at h
    simp only [Bool.false_eq_true, if_false] at h
    exact Except.noConfusion h

end Lemmas


section Claims

/-- Characterization of a successful scan: the returned field splits the
list into a prefix of non-missing fields and the first missing one. -/
theorem validateFields_some_iff (obj : Body) (fields : List String) (f : String) :
    validateFields obj fields = some f ↔
      ∃ pre post, fields = pre ++ f :: post ∧ isMissing obj f = true ∧
        ∀ g ∈ pre, isMissing obj g = false := by
  induction fields with
  | nil =>
    constructor
    · intro h
      simp [validateFields] at h
    · rintro ⟨pre, post, habs, -, -⟩
      exact absurd habs (by simp)
  | cons g rest ih =>
    by_cases hg : isMissing obj g = true
    · simp only [validateFields, hg, if_true]
      constructor
      · intro h
        have hgf : g = f := by
          injection h
        subst hgf
        exact ⟨[], rest, rfl, hg, by intro x hx; cases hx⟩
      · rintro ⟨pre, post, heq, hmiss, hpre⟩
        cases pre with
        | nil =>
          simp only [List.nil_append, List.cons.injEq] at heq
          rw [heq.1]
        | cons p pre' =>
          simp only [List.cons_append, List.cons.injEq] at heq
          have hgp : g ∈ p :: pre' := by
            rw [heq.1]
            exact List.mem_cons_self _ _
          have := hpre g hgp
          rw [this] at hg
          cases hg
    · rw [Bool.not_eq_true] at hg
      simp only [validateFields, hg, Bool.false_eq_true, if_false]
      rw [ih]
      constructor
      · rintro ⟨pre, post, heq, hmiss, hpre⟩
        refine ⟨g :: pre, post, by rw [heq, List.cons_append], hmiss, ?_⟩
        intro x hx
        rcases List.mem_cons.mp hx with h | h
        · rw [h]
          exact hg
        · exact hpre x h
      · rintro ⟨pre, post, heq, hmiss, hpre⟩
        cases pre with
        | nil =>
          simp only [List.nil_append, List.cons.injEq] at heq
          rw [heq.1] at hg
          rw [hmiss] at hg
          cases hg
        | cons p pre' =>
          simp only [List.cons_append, List.cons.injEq] at heq
          exact ⟨pre', post, heq.2, hmiss,
            fun x hx => hpre x (List.mem_cons_of_mem _ hx)⟩

/-- C6: `validateFields(body, fields)` returns the first field name in
`fields`, in declared order, whose value in `body` is absent
(`undefined`), `null`, or the empty string — that is, `some f` exactly
when `fields` splits as a prefix of present fields followed by the
missing field `f` — and returns the no-match value `null` (`none`)
exactly when every listed field has a present, non-null, non-empty
value.  As a Lean function of its two arguments it is deterministic,
pure and side-effect free. -/
theorem C6_validateFields_first_missing (obj : Body) (fields : List String) :
    (validateFields obj fields = none ↔
      ∀ f ∈ fields, isMissing obj f = false) ∧
    (∀ f : String, validateFields obj fields = some f ↔
      ∃ pre post, fields = pre ++ f :: post ∧ isMissing obj f = true ∧
        ∀ g ∈ pre, isMissing obj g = false) := by
  exact ⟨validateFields_eq_none obj fields,
    fun f => validateFields_some_iff obj fields f⟩

/-- Every successfully assembled certificate draws its custom-attribute
keys from the template that its request resolved to. -/
theorem createCert_issued_keys (env : Env) (st : StateA) (body : Body)
    (c : Certificate) (h : createCert env st body = .issued c) :
    ∃ template,
      st.templates.find? (fun t => (bodyGet body "templateId").eqStr t.id)
        = some template ∧
      c.customAttributes.map Prod.fst
        = template.requiredFields.filter (fun f => !(reservedNames.contains f)) := by
  simp only [createCert] at h
  split at h
  · exact CreateOutcome.noConfusion h
  split at h
  · exact CreateOutcome.noConfusion h
  rename_i template htempl
  split at h
  · exact CreateOutcome.noConfusion h
  split at h
  · exact CreateOutcome.noConfusion h
  split at h
  · exact CreateOutcome.noConfusion h
  split at h
  · exact CreateOutcome.noConfusion h
  split at h
  · exact CreateOutcome.noConfusion h
  injection h with h
  refine ⟨template, htempl, ?_⟩
  rw [← h]
  exact customAttributes_keys template.requiredFields
    (fun field => bodyGet (autoMap template body) field)

/-- Auxiliary invariant for runs: every stored certificate of a state
whose template catalog is the seeded one keeps the key property. -/
theorem runA_keys_invariant (ops : List RequestA) : ∀ st : StateA,
    st.templates = templatesSeed →
    (∀ c ∈ st.certificates, ∃ template, template ∈ templatesSeed ∧
        c.customAttributes.map Prod.fst
          = template.requiredFields.filter (fun f => !(reservedNames.contains f))) →
    ∀ c ∈ (runA st ops).certificates, ∃ template, template ∈ templatesSeed ∧
        c.customAttributes.map Prod.fst
          = template.requiredFields.filter (fun f => !(reservedNames.contains f)) := by
  induction ops with
  | nil =>
    intro st _ hinv c hc
    exact hinv c hc
  | cons r rs ih =>
    intro st hts hinv c hc
    unfold runA at hc
    rw [List.foldl_cons] at hc
    have hts' : (stepA st r).templates = templatesSeed :=
      (stepA_preserves_catalogs st r).1.trans hts
    refine ih (stepA st r) hts' ?_ c hc
    intro c' hc'
    cases r with
    | previewCertificate env body =>
      exact hinv c' hc'
    | createCertificate env imageOk body =>
      simp only [stepA, createStepA] at hc'
      cases hout : createCert env st body with
      | reject m =>
        rw [hout] at hc'
        exact hinv c' hc'
      | issued cnew =>
        rw [hout] at hc'
        simp only [List.mem_append, List.mem_singleton] at hc'
        rcases hc' with hold | hnew
        · exact hinv c' hold
        · rcases createCert_issued_keys env st body cnew hout with
            ⟨template, hfind, hkeys⟩
          have hmem : template ∈ st.templates := List.mem_of_find?_eq_some hfind
          rw [hts] at hmem
          rw [hnew]
          exact ⟨template, hmem, hkeys⟩

/-- C5: the key list of a created certificate record's `customAttributes`
equals the template's `requiredFields` with the reserved names `badgeId`,
`expiryDate`, `signatoryIds`, `issuanceDate` removed (hence, as sets,
the required fields minus the reserved names), both for each single
creation and for every certificate stored after any run of requests
against the seeded service. -/
theorem C5_customAttributes_invariant :
    (∀ (env : Env) (st : StateA) (body : Body) (c : Certificate),
      createCert env st body = .issued c →
      ∃ template,
        st.templates.find? (fun t => (bodyGet body "templateId").eqStr t.id)
          = some template ∧
        c.customAttributes.map Prod.fst
          = template.requiredFields.filter (fun f => !(reservedNames.contains f))) ∧
    (∀ (ops : List RequestA), ∀ c ∈ (runA seedA ops).certificates,
      ∃ template, template ∈ templatesSeed ∧
        c.customAttributes.map Prod.fst
          = template.requiredFields.filter (fun f => !(reservedNames.contains f))) := by
  constructor
  · exact createCert_issued_keys
  · intro ops c hc
    exact runA_keys_invariant ops seedA rfl (by intro c' hc'; cases hc') c hc

/-- Witness for C5: a concrete creation against `temp-002` stores custom
attributes with keys `certificateNumber`, `recipientName`. -/
theorem C5_customAttributes_invariant_witness :
    createCert envW seedA bodyW2 = .issued certW2 ∧
    (∃ template,
      seedA.templates.find? (fun t => (bodyGet bodyW2 "templateId").eqStr t.id)
        = some template ∧
      certW2.customAttributes.map Prod.fst
        = template.requiredFields.filter (fun f => !(reservedNames.contains f))) :=
  ⟨rfl, C5_customAttributes_invariant.1 envW seedA bodyW2 certW2 rfl⟩

/-- C8: the three catalog GET endpoints always reply
`{success: true, data: seeded catalog}` with the seed order preserved,
in both revisions, no matter which sequence of certificate-creation and
preview POSTs ran before: no operation ever modifies the template, badge
or signatory lists. -/
theorem C8_catalogs_read_only :
    (∀ ops : List RequestA,
      getTemplatesA (runA seedA ops) = { success := true, data := templatesSeed } ∧
      getBadgesA (runA seedA ops) = { success := true, data := badgesSeed } ∧
      getSignatoriesA (runA seedA ops) = { success := true, data := signatoriesSeed }) ∧
    (∀ ops : List V0.Request,
      V0.getTemplates (V0.run V0.seedB ops) = { success := true, data := V0.templatesSeed } ∧
      V0.getBadges (V0.run V0.seedB ops) = { success := true, data := V0.badgesSeed } ∧
      V0.getSignatories (V0.run V0.seedB ops) = { success := true, data := signatoriesSeed }) := by
  constructor
  · intro ops
    rcases runA_preserves_catalogs ops seedA with ⟨h1, h2, h3⟩
    refine ⟨?_, ?_, ?_⟩
    · unfold getTemplatesA
      rw [h1]
      rfl
    · unfold getBadgesA
      rw [h2]
      rfl
    · unfold getSignatoriesA
      rw [h3]
      rfl
  · intro ops
    rcases V0.run_preserves_catalogs ops V0.seedB with ⟨h1, h2, h3⟩
    refine ⟨?_, ?_, ?_⟩
    · unfold V0.getTemplates
      rw [h1]
      rfl
    · unfold V0.getBadges
      rw [h2]
      rfl
    · unfold V0.getSignatories
      rw [h3]
      rfl

/-- When exactly one template-required field other than `recipientName`
is missing and the base fields are present, the creation handler rejects
naming that field. -/
theorem createCert_missing_unique_reject (env : Env) (st : StateA)
    (t : Template) (f : String) (body : Body)
    (hfind : st.templates.find? (fun u => (bodyGet body "templateId").eqStr u.id)
      = some t)
    (hbase : validateFields body baseRequiredCreate = none)
    (hname : isMissing body "name" = false)
    (hrecip : t.requiredFields.contains "recipientName" = true)
    (hf : f ∈ t.requiredFields) (hfrn : f ≠ "recipientName") (hfne : f ≠ "")
    (hfm : isMissing body f = true)
    (huniq : ∀ g ∈ t.requiredFields, g ≠ f → isMissing body g = false) :
    createCert env st body = .reject ("Missing required attribute: " ++ f) := by
  have hrm : isMissing (autoMap t body) "recipientName" = false := by
    by_cases htr : truthy (bodyGet body "recipientName") = true
    · rw [autoMap_id_of_truthy t body htr]
      unfold isMissing
      exact missingVal_eq_false_of_truthy htr
    · rw [Bool.not_eq_true] at htr
      unfold isMissing
      rw [bodyGet_autoMap_fired t body hrecip htr]
      unfold isMissing at hname
      exact hname
  have hfm' : isMissing (autoMap t body) f = true := by
    rw [isMissing_autoMap_other t body f hfrn]
    exact hfm
  have hvf : validateFields (autoMap t body) t.requiredFields = some f := by
    apply validateFields_of_unique hf hfm'
    intro g hg hgf
    by_cases hgr : g = "recipientName"
    · rw [hgr]
      exact hrm
    · rw [isMissing_autoMap_other t body g hgr]
      exact huniq g hg hgf
  have hfbeq : (f == "") = false := by
    simp only [beq_eq_false_iff_ne, ne_eq]
    exact hfne
  unfold createCert
  rw [hbase, hfind]
  simp only [strTruthy, Bool.false_eq_true, if_false]
  rw [hvf]
  simp only [strTruthy, hfbeq, Bool.not_false, if_true, Option.getD_some]

/-- C1 counterexample: for the catalog template `temp-002` the concrete
request `bodyC1` omits exactly the required field `recipientName`
(supplying every other required and base field), yet the response is not
a 400 naming it: the creation succeeds (status 200, no rejection
message), because the handler auto-maps `name` onto `recipientName`. -/
theorem C1_counterexample :
    temp002 ∈ seedA.templates ∧
    "recipientName" ∈ temp002.requiredFields ∧
    bodyGet bodyC1 "templateId" = .str temp002.id ∧
    isMissing bodyC1 "recipientName" = true ∧
    (∀ g ∈ temp002.requiredFields, g ≠ "recipientName" → isMissing bodyC1 g = false) ∧
    (∀ g ∈ baseRequiredCreate, isMissing bodyC1 g = false) ∧
    createCert envW seedA bodyC1 = .issued certW2 ∧
    createStatusA envW true seedA bodyC1 = 200 ∧
    (createCert envW seedA bodyC1).rejectMsg = none :=
  ⟨by decide, by decide, rfl, by decide, by decide, by decide, rfl, rfl, rfl⟩

/-- C1 (amended): for every seeded template and every creation request
against it that omits exactly one required field — the field being
absent, null or empty — while supplying all base fields and all other
required fields, the response is a 400 naming exactly that field,
PROVIDED the omitted field is not `recipientName`; omitting
`recipientName` is repaired by the auto-mapping from `name` (see the
counterexample) and does not produce that rejection. -/
theorem C1_missing_required_field_amended (env : Env) (t : Template)
    (ht : t ∈ templatesSeed) (f : String) (hf : f ∈ t.requiredFields)
    (hfrn : f ≠ "recipientName") (body : Body)
    (hbase : ∀ g ∈ baseRequiredCreate, isMissing body g = false)
    (htid : bodyGet body "templateId" = .str t.id)
    (hfm : isMissing body f = true)
    (huniq : ∀ g ∈ t.requiredFields, g ≠ f → isMissing body g = false) :
    createCert env seedA body = .reject ("Missing required attribute: " ++ f) := by
  have hbase0 : validateFields body baseRequiredCreate = none :=
    (validateFields_eq_none body baseRequiredCreate).mpr hbase
  have hname : isMissing body "name" = false := hbase "name" (by decide)
  have hfne : f ≠ "" := by
    intro hemp
    rw [hemp] at hf
    fin_cases ht <;> revert hf <;> decide
  fin_cases ht <;>
    exact createCert_missing_unique_reject env seedA _ f body
      (by rw [htid]; rfl) hbase0 hname (by decide) hf hfrn hfne hfm huniq

/-- Witness for the amended C1: omitting only `certificateNumber` from a
`temp-002` request yields the 400 message naming it. -/
theorem C1_missing_required_field_amended_witness :
    createCert envW seedA
      [ ("name", .str "Alice"), ("email", .str "alice@example.com")
      , ("templateId", .str "temp-002"), ("issuanceDate", .str "2025-01-01")
      , ("expiryDate", .str "2026-01-01"), ("recipientName", .str "Alice") ]
      = .reject "Missing required attribute: certificateNumber" := by
  have h := C1_missing_required_field_amended envW temp002 (by decide)
    "certificateNumber" (by decide) (by decide)
    [ ("name", .str "Alice"), ("email", .str "alice@example.com")
    , ("templateId", .str "temp-002"), ("issuanceDate", .str "2025-01-01")
    , ("expiryDate", .str "2026-01-01"), ("recipientName", .str "Alice") ]
    (by decide) rfl (by decide) (by decide)
  exact h

/-- C3 counterexample: under current date 2026-10-11, a successful
`temp-003` creation that omits `expiryDate` but supplies
`issuanceDate = "2020-01-01"` gets `expiryDate = "2027-10-11"` — one year
after the current date — and not `"2021-01-01"`, one calendar year after
its issuance date, refuting the claim at this input. -/
theorem C3_counterexample :
    ("expiryDate" ∈ temp003.requiredFields) = False ∧
    bodyGet bodyC3 "templateId" = .str temp003.id ∧
    bodyGet bodyC3 "expiryDate" = .undefined ∧
    bodyGet bodyC3 "issuanceDate" = .str "2020-01-01" ∧
    createCert envW seedA bodyC3 = .issued certC3 ∧
    certC3.issuanceDate = .str "2020-01-01" ∧
    certC3.expiryDate = .str "2027-10-11" ∧
    ("2027-10-11" : String) ≠ "2021-01-01" :=
  ⟨by decide, rfl, rfl, rfl, rfl, rfl, rfl, by decide⟩

/-- C3 (amended): for every successful creation against a template whose
`requiredFields` does not contain `expiryDate`, if the request supplies
no truthy `expiryDate` then the created certificate's `expiryDate` is
exactly one calendar year after the CURRENT date (same month and day,
year + 1, with Feb 29 normalized to Mar 1), irrespective of the supplied
`issuanceDate`; it coincides with one year after `issuanceDate` only
when the issuance date equals the current date. -/
theorem C3_expiry_defaults_amended (env : Env) (st : StateA) (body : Body)
    (t : Template) (c : Certificate)
    (hfind : st.templates.find? (fun u => (bodyGet body "templateId").eqStr u.id)
      = some t)
    (hnoexp : t.requiredFields.contains "expiryDate" = false)
    (hfal : truthy (bodyGet body "expiryDate") = false)
    (h : createCert env st body = .issued c) :
    c.expiryDate = .str (isoOf (addOneYearJS env.today)) := by
  clear hnoexp
  have hexp1 : bodyGet (autoMap t body) "expiryDate" = bodyGet body "expiryDate" :=
    bodyGet_autoMap_other t body "expiryDate" (by decide)
  simp only [createCert] at h
  split at h
  · exact CreateOutcome.noConfusion h
  split at h
  · exact CreateOutcome.noConfusion h
  rename_i template htempl
  rw [hfind] at htempl
  injection htempl with htempl
  subst htempl
  split at h
  · exact CreateOutcome.noConfusion h
  split at h
  · exact CreateOutcome.noConfusion h
  split at h
  · exact CreateOutcome.noConfusion h
  split at h
  · exact CreateOutcome.noConfusion h
  split at h
  · exact CreateOutcome.noConfusion h
  injection h with h
  rw [← h]
  simp only [hexp1, hfal, Bool.false_eq_true, if_false]

/-- Witness for the amended C3 at the counterexample input. -/
theorem C3_expiry_defaults_amended_witness :
    createCert envW seedA bodyC3 = .issued certC3 ∧
    certC3.expiryDate = .str (isoOf (addOneYearJS envW.today)) :=
  ⟨rfl, C3_expiry_defaults_amended envW seedA bodyC3 temp003 certC3 rfl
    (by decide) rfl rfl⟩

/-- C4 counterexample: a fully valid `temp-002` creation whose image
generation fails returns status 500, yet the certificate store has
gained the record: the push at src/index.js line 288 precedes the image
work, so this error response is not store-neutral, refuting
all-or-nothing as claimed. -/
theorem C4_counterexample :
    createStatusA envW false seedA bodyW2 = 500 ∧
    (stepA seedA (RequestA.createCertificate envW false bodyW2)).certificates
      = [certW2] ∧
    seedA.certificates = [] ∧
    [certW2] ≠ ([] : List Certificate) :=
  ⟨rfl, rfl, rfl, List.cons_ne_nil _ _⟩

/-- C4 (amended): every 400 response leaves the variant A store
untouched — all validation precedes any store mutation — and every
success appends exactly one record; but a 500 (image-generation
failure) also leaves exactly one appended record, because the push
happens before the image step, so only the 400 responses are
store-neutral.  In the earlier revision, which has no 500 path, creation
is fully all-or-nothing: 400 leaves the store unchanged and 201 appends
exactly one record. -/
theorem C4_creation_atomicity_amended :
    (∀ (env : Env) (imageOk : Bool) (st : StateA) (body : Body),
      (createStatusA env imageOk st body = 400 →
        stepA st (.createCertificate env imageOk body) = st) ∧
      ((createStatusA env imageOk st body = 200 ∨
          createStatusA env imageOk st body = 500) →
        ∃ c, createCert env st body = .issued c ∧
          (stepA st (.createCertificate env imageOk body)).certificates
            = st.certificates ++ [c])) ∧
    (∀ (env : Env) (st : V0.StateB) (body : Body),
      (V0.createStatus env st body = 400 → V0.createStep env st body = st) ∧
      (V0.createStatus env st body = 201 →
        ∃ c, V0.createCert env st body = .created c ∧
          (V0.createStep env st body).certificates = st.certificates ++ [c])) := by
  constructor
  · intro env imageOk st body
    cases hout : createCert env st body with
    | reject m =>
      constructor
      · intro _
        simp [stepA, createStepA, hout]
      · intro h
        rcases h with h | h <;> simp [createStatusA, hout] at h
    | issued c =>
      constructor
      · intro h
        cases imageOk <;> simp [createStatusA, hout] at h
      · intro _
        exact ⟨c, rfl, by simp [stepA, createStepA, hout]⟩
  · intro env st body
    cases hout : V0.createCert env st body with
    | reject m =>
      constructor
      · intro _
        simp [V0.createStep, hout]
      · intro h
        simp [V0.createStatus, hout] at h
    | created c =>
      constructor
      · intro h
        simp [V0.createStatus, hout] at h
      · intro _
        exact ⟨c, rfl, by simp [V0.createStep, hout]⟩

/-- Witness for the amended C4: the concrete failing-image creation
appends exactly one record. -/
theorem C4_creation_atomicity_amended_witness :
    ∃ c, createCert envW seedA bodyW2 = .issued c ∧
      (stepA seedA (.createCertificate envW false bodyW2)).certificates
        = seedA.certificates ++ [c] :=
  (C4_creation_atomicity_amended.1 envW false seedA bodyW2).2 (Or.inr rfl)

/-- C2 counterexample: `temp-001` requires signatories and the preview
body supplies only the unresolvable id `"bad-id"`, so zero ids resolve —
yet the preview request is not rejected: it succeeds with an empty
signatory list, because the preview handler lacks the zero-resolve
check of the creation handler. -/
theorem C2_counterexample :
    "signatoryIds" ∈ temp001.requiredFields ∧
    bodyGet bodyC2bad "templateId" = .str temp001.id ∧
    bodyGet bodyC2bad "signatoryIds" = .arr [.str "bad-id"] ∧
    resolveSignatories signatoriesSeed [.str "bad-id"] = [] ∧
    (previewCert envW seedA bodyC2bad).okSignatories = some [] ∧
    (previewCert envW seedA bodyC2bad).rejectMsg = none :=
  ⟨by decide, rfl, rfl, rfl, rfl, rfl⟩

/-- C2 (amended): on a template requiring `signatoryIds`, a value that
is not a non-empty array can never produce a certificate or a preview; a
successful creation carries exactly the catalog-resolved entries of the
submitted ids (unresolved ids silently dropped) and that resolved list
is non-empty — the creation handler rejects a zero-resolve list with 400
"Invalid signatory IDs provided" (note the capital I) — while a
successful preview carries exactly the resolved entries with NO
zero-resolve rejection: an all-unresolvable list previews successfully
with an empty signatory list.  Concretely, creating with
`["bad-id"]` is rejected with "Invalid signatory IDs provided",
creating with `["sig-001","bad-id"]` succeeds with only `sig-001`
resolved, and previewing those bodies yields signatories
`[sig-001 entry]` and `[]` respectively. -/
theorem C2_signatory_resolution_amended :
    (∀ (env : Env) (st : StateA) (body : Body) (t : Template),
      st.templates.find? (fun u => (bodyGet body "templateId").eqStr u.id)
          = some t →
      t.requiredFields.contains "signatoryIds" = true →
      (∀ ids, bodyGet body "signatoryIds" = .arr ids → ids = []) →
      ∀ c, createCert env st body ≠ .issued c) ∧
    (∀ (env : Env) (st : StateA) (body : Body) (t : Template)
        (ids : List JVal) (c : Certificate),
      st.templates.find? (fun u => (bodyGet body "templateId").eqStr u.id)
          = some t →
      t.requiredFields.contains "signatoryIds" = true →
      bodyGet body "signatoryIds" = .arr ids →
      createCert env st body = .issued c →
      c.signatories = resolveSignatories st.signatories ids ∧
        resolveSignatories st.signatories ids ≠ []) ∧
    (∀ (env : Env) (st : StateA) (body : Body) (t : Template),
      st.templates.find? (fun u => (bodyGet body "templateId").eqStr u.id)
          = some t →
      t.requiredFields.contains "signatoryIds" = true →
      (∀ ids, bodyGet body "signatoryIds" = .arr ids → ids = []) →
      ∀ p, previewCert env st body ≠ .ok p) ∧
    (∀ (env : Env) (st : StateA) (body : Body) (t : Template)
        (ids : List JVal) (p : Preview),
      st.templates.find? (fun u => (bodyGet body "templateId").eqStr u.id)
          = some t →
      t.requiredFields.contains "signatoryIds" = true →
      bodyGet body "signatoryIds" = .arr ids →
      previewCert env st body = .ok p →
      p.signatories = resolveSignatories st.signatories ids) ∧
    (createCert envW seedA bodyC2bad).rejectMsg
      = some "Invalid signatory IDs provided" ∧
    (createCert envW seedA bodyC2mixed).issuedSignatories = some [sigEntry001] ∧
    (previewCert envW seedA bodyC2mixed).okSignatories = some [sigEntry001] ∧
    (previewCert envW seedA bodyC2bad).okSignatories = some [] := by
  refine ⟨?_, ?_, ?_, ?_, rfl, rfl, rfl, rfl⟩
  · intro env st body t hfind hreq hnot c h
    rcases createCert_issued_inv env st body c h with ⟨t', hfind', l, hsig, hcs⟩
    rw [hfind] at hfind'
    injection hfind' with hfind'
    subst hfind'
    rcases signatoryStep_ok_inv st t (autoMap t body) l hreq hsig with
      ⟨ids, harr, hne, -, -⟩
    rw [bodyGet_autoMap_other t body "signatoryIds" (by decide)] at harr
    exact hne (hnot ids harr)
  · intro env st body t ids c hfind hreq harr h
    rcases createCert_issued_inv env st body c h with ⟨t', hfind', l, hsig, hcs⟩
    rw [hfind] at hfind'
    injection hfind' with hfind'
    subst hfind'
    rcases signatoryStep_ok_inv st t (autoMap t body) l hreq hsig with
      ⟨ids', harr', -, hres, hlne⟩
    rw [bodyGet_autoMap_other t body "signatoryIds" (by decide), harr] at harr'
    injection harr' with harr'
    subst harr'
    rw [hcs, hres]
    exact ⟨rfl, by rw [← hres]; exact hlne⟩
  · intro env st body t hfind hreq hnot p h
    rcases previewCert_ok_inv env st body p h with ⟨t', hfind', l, hsig, hps⟩
    rw [hfind] at hfind'
    injection hfind' with hfind'
    subst hfind'
    rcases previewSignatoryStep_ok_inv st t body l hreq hsig with
      ⟨ids, harr, hne, -⟩
    exact hne (hnot ids harr)
  · intro env st body t ids p hfind hreq harr h
    rcases previewCert_ok_inv env st body p h with ⟨t', hfind', l, hsig, hps⟩
    rw [hfind] at hfind'
    injection hfind' with hfind'
    subst hfind'
    rcases previewSignatoryStep_ok_inv st t body l hreq hsig with
      ⟨ids', harr', -, hres⟩
    rw [harr] at harr'
    injection harr' with harr'
    subst harr'
    rw [hps, hres]

/-- Witness for the amended C2: a `temp-001` creation whose
`signatoryIds` is a plain string is rejected (it can never issue), with
the non-empty-array message. -/
theorem C2_signatory_resolution_amended_witness :
    (createCert envW seedA bodyC2str).rejectMsg
      = some "signatoryIds must be a non-empty array" ∧
    (createCert envW seedA bodyC2str).isIssued = false := by
  refine ⟨rfl, ?_⟩
  cases hc : createCert envW seedA bodyC2str with
  | reject m => rfl
  | issued c =>
    exact absurd hc (C2_signatory_resolution_amended.1 envW seedA bodyC2str
      temp001 rfl (by decide) (fun ids h => JVal.noConfusion h) c)

/-- Without the `signatoryIds` requirement, neither signatory rejection
message can be produced for a request whose template resolves. -/
theorem createCert_no_signatory_reject (env : Env) (st : StateA) (body : Body)
    (t : Template) (m : String)
    (hfind : st.templates.find? (fun u => (bodyGet body "templateId").eqStr u.id)
      = some t)
    (hns : t.requiredFields.contains "signatoryIds" = false)
    (hm : m = "signatoryIds must be a non-empty array" ∨
      m = "Invalid signatory IDs provided") :
    createCert env st body ≠ .reject m := by
  intro h
  simp only [createCert] at h
  split at h
  · injection h with h
    rcases hm with rfl | rfl
    · exact append_ne_of_not_prefix "Missing required field: " _ _ (by decide) h
    · exact append_ne_of_not_prefix "Missing required field: " _ _ (by decide) h
  split at h
  · injection h with h
    rcases hm with rfl | rfl <;> exact absurd h (by decide)
  rename_i t' htempl
  rw [hfind] at htempl
  injection htempl with htempl
  subst htempl
  split at h
  · injection h with h
    rcases hm with rfl | rfl
    · exact append_ne_of_not_prefix "Missing required attribute: " _ _ (by decide) h
    · exact append_ne_of_not_prefix "Missing required attribute: " _ _ (by decide) h
  split at h
  · injection h with h
    rcases hm with rfl | rfl <;> exact absurd h (by decide)
  split at h
  · rename_i msg hsig
    rw [signatoryStep_not_required st t (autoMap t body) hns] at hsig
    exact Except.noConfusion hsig
  split at h
  · injection h with h
    rcases hm with rfl | rfl <;> exact absurd h (by decide)
  split at h
  · injection h with h
    rcases hm with rfl | rfl <;> exact absurd h (by decide)
  exact CreateOutcome.noConfusion h

/-- C7: a `temp-002` creation request supplying name, a well-formed
email and truthy values for all of that template's required fields,
while leaving `badgeId` and `signatoryIds` absent, is issued with
`badgeId = null` and an empty signatory list; and in general, for any
request whose template does not require `badgeId` / `signatoryIds`, no
badge or signatory validation rejection can occur and every issued
certificate has an empty signatory list — resolution is performed only
when the template requires it. -/
theorem C7_conditional_badge_signatories :
    (∀ (env : Env) (body : Body),
      bodyGet body "templateId" = .str "temp-002" →
      (∀ g ∈ baseRequiredCreate, isMissing body g = false) →
      (∀ g ∈ temp002.requiredFields, truthy (bodyGet body g) = true) →
      emailOk (bodyGet body "email") = true →
      bodyGet body "badgeId" = .undefined →
      bodyGet body "signatoryIds" = .undefined →
      ∃ c, createCert env seedA body = .issued c ∧
        c.badgeId = .null ∧ c.signatories = []) ∧
    (∀ (env : Env) (st : StateA) (body : Body) (t : Template) (c : Certificate),
      st.templates.find? (fun u => (bodyGet body "templateId").eqStr u.id)
          = some t →
      t.requiredFields.contains "signatoryIds" = false →
      createCert env st body = .issued c → c.signatories = []) ∧
    (∀ (env : Env) (st : StateA) (body : Body) (t : Template),
      st.templates.find? (fun u => (bodyGet body "templateId").eqStr u.id)
          = some t →
      t.requiredFields.contains "badgeId" = false →
      createCert env st body ≠ .reject "Invalid badge ID") ∧
    (∀ (env : Env) (st : StateA) (body : Body) (t : Template),
      st.templates.find? (fun u => (bodyGet body "templateId").eqStr u.id)
          = some t →
      t.requiredFields.contains "signatoryIds" = false →
      createCert env st body ≠ .reject "signatoryIds must be a non-empty array" ∧
        createCert env st body ≠ .reject "Invalid signatory IDs provided") := by
  refine ⟨?_, ?_, ?_, ?_⟩
  · intro env body htid hbase hreq hemail hbid hsid
    have hbase0 : validateFields body baseRequiredCreate = none :=
      (validateFields_eq_none body baseRequiredCreate).mpr hbase
    have hfind : seedA.templates.find?
        (fun u => (bodyGet body "templateId").eqStr u.id) = some temp002 := by
      rw [htid]
      rfl
    have hauto : autoMap temp002 body = body :=
      autoMap_id_of_truthy temp002 body (hreq "recipientName" (by decide))
    have hfields : validateFields body temp002.requiredFields = none :=
      (validateFields_eq_none body temp002.requiredFields).mpr
        (fun g hg => by
          unfold isMissing
          exact missingVal_eq_false_of_truthy (hreq g hg))
    have hnb : temp002.requiredFields.contains "badgeId" = false := by decide
    have hexpc : temp002.requiredFields.contains "expiryDate" = true := by decide
    have hsig := signatoryStep_not_required seedA temp002 body (by decide)
    have hexp : truthy (bodyGet body "expiryDate") = true :=
      hreq "expiryDate" (by decide)
    have hiss : truthy (bodyGet body "issuanceDate") = true :=
      hreq "issuanceDate" (by decide)
    have hbidt : truthy (bodyGet body "badgeId") = false := by
      rw [hbid]
      rfl
    simp only [createCert, hbase0, hfind, hauto, hfields, hnb, hexpc, hsig,
      hemail, hexp, hiss, hbidt, strTruthy, Bool.false_eq_true, if_false,
      Bool.false_and, Bool.not_true, Bool.and_false, if_true]
    exact ⟨_, rfl, rfl, rfl⟩
  · intro env st body t c hfind hns h
    rcases createCert_issued_inv env st body c h with ⟨t', hfind', l, hsig, hcs⟩
    rw [hfind] at hfind'
    injection hfind' with hfind'
    subst hfind'
    rw [signatoryStep_not_required st t (autoMap t body) hns] at hsig
    injection hsig with hsig
    rw [hcs]
    exact hsig.symm
  · intro env st body t hfind hnb h
    simp only [createCert] at h
    split at h
    · injection h with h
      exact append_ne_of_not_prefix "Missing required field: " _ _ (by decide) h
    split at h
    · injection h with h
      exact absurd h (by decide)
    rename_i t' htempl
    rw [hfind] at htempl
    injection htempl with htempl
    subst htempl
    split at h
    · injection h with h
      exact append_ne_of_not_prefix "Missing required attribute: " _ _ (by decide) h
    split at h
    · rename_i hcond
      rw [hnb] at hcond
      simp at hcond
    split at h
    · rename_i msg hsig
      injection h with h
      rcases signatoryStep_error_msgs st t (autoMap t body) msg hsig with h1 | h1 <;>
        (rw [h1] at h; exact absurd h (by decide))
    split at h
    · injection h with h
      exact absurd h (by decide)
    split at h
    · injection h with h
      exact absurd h (by decide)
    exact CreateOutcome.noConfusion h
  · intro env st body t hfind hns
    exact ⟨createCert_no_signatory_reject env st body t _ hfind hns (Or.inl rfl),
      createCert_no_signatory_reject env st body t _ hfind hns (Or.inr rfl)⟩

/-- Witness for C7: the concrete body `bodyW2` (no `badgeId`, no
`signatoryIds`) issues with a null badge and no signatories. -/
theorem C7_conditional_badge_signatories_witness :
    ∃ c, createCert envW seedA bodyW2 = .issued c ∧
      c.badgeId = .null ∧ c.signatories = [] :=
  C7_conditional_badge_signatories.1 envW bodyW2 rfl (by decide)
    (by decide) (by decide) rfl rfl

/-- C9: when the resolved template requires `recipientName`, the request
supplies a present, non-null, non-empty `name`, and the body value of
`recipientName` is falsy (absent, null, empty, 0 or false), the request
is never rejected for a missing `recipientName`; instead any issued
certificate's `customAttributes` entry for `recipientName` is exactly
the request's `name` value, copied by the auto-mapping step. -/
theorem C9_recipientName_automap (env : Env) (st : StateA) (body : Body)
    (t : Template)
    (hfind : st.templates.find? (fun u => (bodyGet body "templateId").eqStr u.id)
      = some t)
    (hreq : t.requiredFields.contains "recipientName" = true)
    (hname : isMissing body "name" = false)
    (hfal : truthy (bodyGet body "recipientName") = false) :
    createCert env st body ≠ .reject "Missing required attribute: recipientName" ∧
    ∀ c, createCert env st body = .issued c →
      assocFind c.customAttributes "recipientName" = some (bodyGet body "name") := by
  have hrm : isMissing (autoMap t body) "recipientName" = false := by
    unfold isMissing
    rw [bodyGet_autoMap_fired t body hreq hfal]
    unfold isMissing at hname
    exact hname
  constructor
  · intro h
    simp only [createCert] at h
    split at h
    · injection h with h
      exact append_ne_of_not_prefix "Missing required field: " _ _ (by decide) h
    split at h
    · injection h with h
      exact absurd h (by decide)
    rename_i t' htempl
    rw [hfind] at htempl
    injection htempl with htempl
    subst htempl
    split at h
    · injection h with h
      cases hv : validateFields (autoMap t body) t.requiredFields with
      | none =>
        rw [hv] at h
        exact absurd h (by decide)
      | some m =>
        rw [hv] at h
        simp only [Option.getD_some] at h
        have hm := string_append_left_cancel h
        rw [hm] at hv
        have := (validateFields_mem hv).2
        rw [this] at hrm
        exact Bool.noConfusion hrm
    split at h
    · injection h with h
      exact absurd h (by decide)
    split at h
    · rename_i msg hsig
      injection h with h
      rcases signatoryStep_error_msgs st t (autoMap t body) msg hsig with h1 | h1 <;>
        (rw [h1] at h; exact absurd h (by decide))
    split at h
    · injection h with h
      exact absurd h (by decide)
    split at h
    · injection h with h
      exact absurd h (by decide)
    exact CreateOutcome.noConfusion h
  · intro c h
    simp only [createCert] at h
    split at h
    · exact CreateOutcome.noConfusion h
    split at h
    · exact CreateOutcome.noConfusion h
    rename_i t' htempl
    rw [hfind] at htempl
    injection htempl with htempl
    subst htempl
    split at h
    · exact CreateOutcome.noConfusion h
    split at h
    · exact CreateOutcome.noConfusion h
    split at h
    · exact CreateOutcome.noConfusion h
    split at h
    · exact CreateOutcome.noConfusion h
    split at h
    · exact CreateOutcome.noConfusion h
    injection h with h
    rw [← h]
    have hmem : "recipientName" ∈ t.requiredFields := by
      simpa using hreq
    have hfound := customAttributes_find t.requiredFields
      (fun field => bodyGet (autoMap t body) field) "recipientName" hmem (by decide)
    simp only [] at hfound
    rw [bodyGet_autoMap_fired t body hreq hfal] at hfound
    exact hfound

/-- Witness for C9 at the concrete body `bodyC1`, which omits
`recipientName`: the stored custom attribute equals the name value. -/
theorem C9_recipientName_automap_witness :
    createCert envW seedA bodyC1 = .issued certW2 ∧
    assocFind certW2.customAttributes "recipientName" = some (.str "Alice") := by
  refine ⟨rfl, ?_⟩
  have h := (C9_recipientName_automap envW seedA bodyC1 temp002 rfl (by decide)
    (by decide) rfl).2 certW2 rfl
  exact h

/-- C10: both creation handlers apply the email regular expression — a
request can only issue (variant A) or create (earlier revision) when its
email value matches, and a request passing every earlier check with a
non-matching email is rejected 400 "Invalid email format" — while
neither preview handler ever produces that rejection. -/
theorem C10_email_regex :
    (∀ (env : Env) (st : StateA) (body : Body) (c : Certificate),
      createCert env st body = .issued c →
      emailOk (bodyGet body "email") = true) ∧
    (∀ (env : Env) (st : StateA) (body : Body) (t : Template),
      validateFields body baseRequiredCreate = none →
      st.templates.find? (fun u => (bodyGet body "templateId").eqStr u.id)
          = some t →
      validateFields (autoMap t body) t.requiredFields = none →
      (t.requiredFields.contains "badgeId" &&
        (st.badges.find? (fun b =>
          (bodyGet (autoMap t body) "badgeId").eqStr b.id)).isNone) = false →
      (∃ l, signatoryStep st t (autoMap t body) = .ok l) →
      emailOk (bodyGet body "email") = false →
      createCert env st body = .reject "Invalid email format") ∧
    (∀ (env : Env) (st : V0.StateB) (body : Body) (c : V0.Certificate),
      V0.createCert env st body = .created c →
      emailOk (bodyGet body "email") = true) ∧
    (∀ (env : Env) (st : V0.StateB) (body : Body),
      truthy (bodyGet body "name") = true →
      truthy (bodyGet body "email") = true →
      truthy (bodyGet body "templateId") = true →
      truthy (bodyGet body "badgeId") = true →
      emailOk (bodyGet body "email") = false →
      V0.createCert env st body = .reject "Invalid email format") ∧
    (∀ (env : Env) (st : StateA) (body : Body),
      previewCert env st body ≠ .reject "Invalid email format") ∧
    (∀ (env : Env) (st : V0.StateB) (body : Body),
      V0.previewCert env st body ≠ .reject "Invalid email format") := by
  refine ⟨?_, ?_, ?_, ?_, ?_, ?_⟩
  · intro env st body c h
    simp only [createCert] at h
    split at h
    · exact CreateOutcome.noConfusion h
    split at h
    · exact CreateOutcome.noConfusion h
    split at h
    · exact CreateOutcome.noConfusion h
    split at h
    · exact CreateOutcome.noConfusion h
    split at h
    · exact CreateOutcome.noConfusion h
    split at h
    · exact CreateOutcome.noConfusion h
    rename_i hmail
    split at h
    · exact CreateOutcome.noConfusion h
    simpa using hmail
  · intro env st body t hbase hfind hfields hbadge hsig hbad
    rcases hsig with ⟨l, hsigeq⟩
    simp only [createCert, hbase, hfind, hfields, hbadge, hsigeq, hbad,
      strTruthy, Bool.false_eq_true, if_false, Bool.not_false, if_true]
  · intro env st body c h
    simp only [V0.createCert] at h
    split at h
    · exact V0.CreateOutcome.noConfusion h
    rename_i hbase
    split at h
    · exact V0.CreateOutcome.noConfusion h
    rename_i hmail
    split at h
    · exact V0.CreateOutcome.noConfusion h
    split at h
    · exact V0.CreateOutcome.noConfusion h
    simpa using hmail
  · intro env st body hn he ht hb hbad
    simp only [V0.createCert, hn, he, ht, hb, hbad, Bool.not_true,
      Bool.or_self, Bool.or_false, Bool.false_or, Bool.false_eq_true,
      if_false, Bool.not_false, if_true]
  · intro env st body h
    simp only [previewCert] at h
    split at h
    · injection h with h
      exact append_ne_of_not_prefix "Missing required field: " _ _ (by decide) h
    split at h
    · injection h with h
      exact absurd h (by decide)
    rename_i t htempl
    split at h
    · injection h with h
      exact append_ne_of_not_prefix "Missing required attribute: " _ _ (by decide) h
    split at h
    · rename_i msg hbadge
      injection h with h
      rw [previewBadge_error_msg st t body msg hbadge] at h
      exact absurd h (by decide)
    split at h
    · rename_i msg hsig
      injection h with h
      rw [previewSignatoryStep_error_msg st t body msg hsig] at h
      exact absurd h (by decide)
    split at h
    · exact PreviewOutcome.noConfusion h
    · exact PreviewOutcome.noConfusion h
  · intro env st body h
    simp only [V0.previewCert] at h
    split at h
    · injection h with h
      exact absurd h (by decide)
    split at h
    · injection h with h
      exact absurd h (by decide)
    split at h
    · injection h with h
      exact absurd h (by decide)
    exact V0.PreviewOutcome.noConfusion h

/-- Witness for C10: the concrete body `bodyC10`, valid but for its
email, is rejected with exactly the email-format message. -/
theorem C10_email_regex_witness :
    createCert envW seedA bodyC10 = .reject "Invalid email format" :=
  C10_email_regex.2.1 envW seedA bodyC10 temp002 rfl rfl rfl rfl
    ⟨[], rfl⟩ (by decide)

end Claims
